import Mathlib

/-!
Verification development for the expense-flow receipt ingestion and
processing pipeline (FastAPI + SQLAlchemy backend).

The Python source is shallowly embedded: each SQLAlchemy row type becomes a
Lean structure, the database session becomes an explicit `DB` state threaded
through the endpoint functions, Python `float` amounts become exact values
(`Int`; only presence and exact equality of amounts matter to the embedded
code), SQLAlchemy datetimes become `PyDateTime` (a calendar-date code plus a
time-of-day), Python exceptions become `Except`, and the external
collaborators the spec excludes (object storage, the OCR engine, the LLM
parser) are passed in as explicit arguments describing their outcome.

Commits are modelled as immediately-visible state updates: every mutation in
the source is followed by `db.commit()` before anything that can raise, or
is flushed by a later commit on the same session, so threading the state
directly is faithful; there is no rollback path in the embedded code.
-/

/-- Calendar date-and-time value, standing for a Python `datetime`.
`day` encodes the calendar date (as produced by `datetime.date()`),
`tod` the time of day.  Two datetimes fall on the same calendar day
exactly when their `day` components agree. -/
structure PyDateTime where
  day : Int
  tod : Int
deriving DecidableEq, Repr

/-- Timestamp of a datetime, for ledger-retention arithmetic
(`datetime - timedelta(days=7)` comparisons). -/
def PyDateTime.ts (d : PyDateTime) : Int := d.day * 86400 + d.tod

/-- Python `str()` of a datetime: injective rendering of both components. -/
def dtStr (d : PyDateTime) : String := toString d.day ++ " " ++ toString d.tod

/-- Monetary amount.  The source stores Python floats and only ever tests
them for presence, truthiness and exact equality, so an exact value type is
a faithful carrier. -/
abbrev Amount := Int

/-- `app.models.receipt.ReceiptStatus`. -/
inductive ReceiptStatus where
  | pending
  | processing
  | completed
  | failed
deriving DecidableEq, Repr

/-- The `.value` string of a `ReceiptStatus` member. -/
def ReceiptStatus.value : ReceiptStatus → String
  | .pending => "pending"
  | .processing => "processing"
  | .completed => "completed"
  | .failed => "failed"

/-- `app.models.receipt.ExpenseCategory`. -/
inductive ExpenseCategory where
  | officeCosts
  | travelCosts
  | clothing
  | staffCosts
  | stockMaterials
  | financialCosts
  | businessPremises
  | advertisingMarketing
  | training
  | other
deriving DecidableEq, Repr

/-- The `.value` display string of an `ExpenseCategory` member. -/
def ExpenseCategory.value : ExpenseCategory → String
  | .officeCosts => "Office Costs"
  | .travelCosts => "Travel Costs"
  | .clothing => "Clothing"
  | .staffCosts => "Staff Costs"
  | .stockMaterials => "Stock and Materials"
  | .financialCosts => "Financial Costs"
  | .businessPremises => "Business Premises"
  | .advertisingMarketing => "Advertising and Marketing"
  | .training => "Training and Development"
  | .other => "Other"

/-- All members of `ExpenseCategory`, in declaration order (the order the
Python `for cat in ExpenseCategory` loop iterates in). -/
def expenseCategoryMembers : List ExpenseCategory :=
  [.officeCosts, .travelCosts, .clothing, .staffCosts, .stockMaterials,
   .financialCosts, .businessPremises, .advertisingMarketing, .training, .other]

/-- `app.models.receipt.Receipt` (one row of the `receipts` table). -/
structure Receipt where
  id : Nat
  user_id : Nat
  image_url : String
  vendor : Option String := none
  date : Option PyDateTime := none
  currency : Option String := some "GBP"
  original_amount : Option Amount := none
  exchange_rate : Option Amount := none
  exchange_rate_date : Option PyDateTime := none
  total_amount : Option Amount := none
  tax_amount : Option Amount := none
  items : Option String := none
  category : Option ExpenseCategory := none
  notes : Option String := none
  is_business : Int := 1
  status : ReceiptStatus := .pending
  ocr_raw_text : Option String := none
  duplicate_suspect : Int := 0
  duplicate_of_id : Option Nat := none
  duplicate_dismissed : Int := 0
  created_at : Int := 0
  deleted_at : Option PyDateTime := none
deriving DecidableEq, Repr

/-- Python truthiness of an optional string (`None` and `""` are falsy). -/
def pyTruthyStr : Option String → Bool
  | none => false
  | some s => s != ""

/-- Python truthiness of an optional amount (`None` and `0.0` are falsy). -/
def pyTruthyAmount : Option Amount → Bool
  | none => false
  | some a => a != 0

/-- SQL equality under `WHERE`: comparing against NULL never matches. -/
def sqlEqOpt {α : Type} [BEq α] : Option α → Option α → Bool
  | some a, some b => a == b
  | _, _ => false

/-- The SQLAlchemy filter of `check_for_duplicates`
(`app/services/duplicate_detection.py` lines 33-40): same user, a different
row, not soft-deleted, exact vendor and amount equality, and equality of
the calendar-date component of the timestamp. -/
def dupFilter (receipt : Receipt) (receiptDate : Int) (c : Receipt) : Bool :=
  c.user_id == receipt.user_id &&
  c.id != receipt.id &&
  c.deleted_at == none &&
  sqlEqOpt c.vendor receipt.vendor &&
  sqlEqOpt c.total_amount receipt.total_amount &&
  (match c.date with
   | none => false
   | some d => d.day == receiptDate)

/-- `app.services.duplicate_detection.check_for_duplicates`.  Takes the
receipt ORM object and the full `receipts` table (the session's view);
returns the boolean result together with the receipt as it stands after the
call (`db.commit()` persists the flag mutation). -/
def check_for_duplicates (receipt : Receipt) (table : List Receipt) :
    Bool × Receipt :=
  if !(pyTruthyStr receipt.vendor) || !(pyTruthyAmount receipt.total_amount)
      || receipt.date == none then
    (false, receipt)
  else
    match receipt.date with
    | none => (false, receipt)
    | some d =>
      match table.find? (dupFilter receipt d.day) with
      | some m =>
        (true, { receipt with duplicate_suspect := 1,
                              duplicate_of_id := some m.id })
      | none => (false, receipt)

/-- `app.models.audit_log.AuditLog` (one append-only audit row).  The
auto-increment id and wall-clock timestamp are represented by the row's
position in the `DB.audit` list, which is append-only in every embedded
operation. -/
structure AuditEvent where
  receipt_id : Nat
  event_type : String
  actor : String
  user_id : Option Nat := none
  field_name : Option String := none
  old_value : Option String := none
  new_value : Option String := none
  extra_data : Option String := none
deriving DecidableEq, Repr

/-- `app.models.processed_email.ProcessedEmail` (idempotency-ledger row). -/
structure ProcessedEmail where
  email_hash : String
  to_email : Option String := none
  from_email : Option String := none
  subject : Option String := none
  attachment_count : Nat := 0
  processed_at : Int := 0
deriving DecidableEq, Repr

/-- The slice of `app.models.user.User` the embedded endpoints read. -/
structure UserRow where
  id : Nat
  email : String
  unique_receipt_email : Option String := none
  is_active : Bool := true
deriving DecidableEq, Repr

/-- The persistent store: the three tables the pipeline touches plus the
users table, with the receipts auto-increment counter made explicit. -/
structure DB where
  receipts : List Receipt := []
  audit : List AuditEvent := []
  processed_emails : List ProcessedEmail := []
  users : List UserRow := []
  next_receipt_id : Nat := 1
deriving DecidableEq, Repr

/-- Commit of a mutated receipt ORM object: rewrite its row in place. -/
def DB.updateReceipt (db : DB) (r : Receipt) : DB :=
  { db with receipts := db.receipts.map (fun x => if x.id == r.id then r else x) }

/-- Failure injection for the two collaborators whose errors the spec
discusses: `auditFails` makes every `log_event` raise (a database error on
the audit insert), `dupFails` makes every `check_for_duplicates` call raise
before mutating anything. -/
structure Env where
  auditFails : Bool := false
  dupFails : Bool := false
deriving DecidableEq, Repr

/-- The no-failure environment. -/
def env0 : Env := {}

/-- `app.services.audit.log_event`: append one immutable audit row and
commit.  Under `auditFails` the insert raises and nothing is appended. -/
def log_event (env : Env) (db : DB) (ev : AuditEvent) : Except String DB :=
  if env.auditFails then .error "audit insert failed"
  else .ok { db with audit := db.audit ++ [ev] }

/-- Event built by `app.services.audit.log_receipt_created`. -/
def createdEvent (receipt_id user_id : Nat) (source : String) : AuditEvent :=
  { receipt_id := receipt_id,
    event_type := "created",
    actor := if source == "manual" then "user" else "system:email",
    user_id := some user_id,
    extra_data := some ("source=" ++ source) }

/-- Event built by `app.services.audit.log_status_change`. -/
def statusEvent (receipt_id : Nat) (old_status new_status : String)
    (actor : String := "system") : AuditEvent :=
  { receipt_id := receipt_id,
    event_type := "status_changed",
    actor := actor,
    field_name := some "status",
    old_value := some old_status,
    new_value := some new_status }

/-- Event built by `app.services.audit.log_field_update`; `old_value` and
`new_value` arrive already run through `str(x) if x is not None else None`. -/
def fieldUpdatedEvent (receipt_id user_id : Nat) (field_name : String)
    (old_value new_value : Option String) : AuditEvent :=
  { receipt_id := receipt_id,
    event_type := "field_updated",
    actor := "user",
    user_id := some user_id,
    field_name := some field_name,
    old_value := old_value,
    new_value := new_value }

/-- Event built by `app.services.audit.log_approval`. -/
def approvedEvent (receipt_id user_id : Nat) : AuditEvent :=
  { receipt_id := receipt_id,
    event_type := "approved",
    actor := "user",
    user_id := some user_id }

/-- Serialization of the `extracted_fields` payload of `log_ocr_completed`. -/
def fieldsPayload (fields : List (String × String)) : String :=
  String.intercalate "," (fields.map (fun p => p.1 ++ "=" ++ p.2))

/-- Event built by `app.services.audit.log_ocr_completed`. -/
def ocrCompletedEvent (receipt_id : Nat) (fields : List (String × String)) :
    AuditEvent :=
  { receipt_id := receipt_id,
    event_type := "ocr_completed",
    actor := "system:ocr",
    extra_data := some ("extracted_fields:" ++ fieldsPayload fields) }

/-- Event built by `app.services.audit.log_deletion`. -/
def deletedEvent (receipt_id user_id : Nat) : AuditEvent :=
  { receipt_id := receipt_id,
    event_type := "deleted",
    actor := "user",
    user_id := some user_id }

/-- Event built inline by the restore endpoint. -/
def restoredEvent (receipt_id user_id : Nat) : AuditEvent :=
  { receipt_id := receipt_id,
    event_type := "restored",
    actor := "user",
    user_id := some user_id,
    extra_data := some "restored_at" }

/-- The `try/except` wrapper every caller puts around
`check_for_duplicates`: a detector failure is logged and swallowed, leaving
the receipt and the store untouched. -/
def tryCheckDuplicates (env : Env) (r : Receipt) (db : DB) : Receipt × DB :=
  if env.dupFails then (r, db)
  else
    let out := check_for_duplicates r db.receipts
    (out.2, db.updateReceipt out.2)

/-- Error outcomes of the API endpoints (`HTTPException` status classes,
plus `internal` for an exception that escapes the handler). -/
inductive ApiErr where
  | notFound
  | badRequest
  | forbidden
  | internal (msg : String)
deriving DecidableEq, Repr

/-- The `Receipt.id == rid, Receipt.user_id == uid, Receipt.deleted_at.is_(None)`
query used by the get/update/approve/dismiss endpoints. -/
def DB.findActive (db : DB) (rid uid : Nat) : Option Receipt :=
  db.receipts.find? (fun r => r.id == rid && r.user_id == uid && r.deleted_at == none)

/-- The `Receipt.id == rid, Receipt.user_id == uid` query (delete, history,
download) — no tombstone filter. -/
def DB.findOwned (db : DB) (rid uid : Nat) : Option Receipt :=
  db.receipts.find? (fun r => r.id == rid && r.user_id == uid)

/-- The `Receipt.id == receipt_id` query used by `process_receipt_ocr` —
neither owner nor tombstone filter. -/
def DB.findById (db : DB) (rid : Nat) : Option Receipt :=
  db.receipts.find? (fun r => r.id == rid)

/-- A JSON number-or-other value as returned by the LLM for the
`total_amount` / `tax_amount` keys; `float(x)` succeeds on numbers and
raises `ValueError` on non-numeric payloads. -/
inductive JsonNum where
  | num (value : Amount)
  | nonNumeric (raw : String)
deriving DecidableEq, Repr

/-- Python `float(x)` on a JSON value: the one merge-step operation in
`process_receipt_ocr` that can raise. -/
def pyFloat : JsonNum → Except String Amount
  | .num v => .ok v
  | .nonNumeric raw => .error ("could not convert to float: " ++ raw)

/-- The field map decoded from the LLM's JSON reply
(`parse_receipt_with_ai`'s `parsed_data`). -/
structure ParsedData where
  vendor : Option String := none
  date : Option String := none
  total_amount : Option JsonNum := none
  tax_amount : Option JsonNum := none
  category : Option String := none
  items : List (String × Amount) := []
deriving DecidableEq, Repr

/-- The all-null structure `parse_receipt_with_ai` returns on any internal
error. -/
def emptyParsedData : ParsedData := {}

/-- `app.services.ocr.parse_receipt_with_ai`: the OpenAI call and JSON
decode are external; their outcome is the `aiResult` argument (`none` when
the call or decode raised).  The function itself never raises — on error it
returns the empty structure. -/
def parse_receipt_with_ai (aiResult : Option ParsedData) : ParsedData :=
  match aiResult with
  | some parsed => parsed
  | none => emptyParsedData

/-- Structural character-level split on a single separator character,
modelling Python `str.split(sep)` (used with `'<'`, `'.'`, `'-'`). -/
def splitOnCharAux (c : Char) : List Char → List Char → List (List Char)
  | [], acc => [acc.reverse]
  | x :: xs, acc =>
    if x == c then acc.reverse :: splitOnCharAux c xs []
    else splitOnCharAux c xs (x :: acc)

/-- Split a string on every occurrence of one character. -/
def splitOnChar (c : Char) (s : String) : List String :=
  (splitOnCharAux c s.data []).map (fun l => ⟨l⟩)

/-- Python `str.lower()`. -/
def pyLower (s : String) : String := ⟨s.data.map Char.toLower⟩

/-- Python `str.strip()` (whitespace strip). -/
def pyStripWs (s : String) : String :=
  ⟨((s.data.dropWhile Char.isWhitespace).reverse.dropWhile
      Char.isWhitespace).reverse⟩

/-- Structural decimal parse modelling Python `int(s)` on digit strings:
`none` unless the string is non-empty and all digits. -/
def pyToNat (s : String) : Option Nat :=
  if s.data.isEmpty then none
  else s.data.foldl (fun acc c =>
    match acc with
    | none => none
    | some n => if c.isDigit then some (n * 10 + (c.toNat - 48)) else none)
    (some 0)

/-- `datetime.strptime(s, "%Y-%m-%d")` followed by `.date()`: ISO
calendar-date parse, `none` on failure (the caller swallows the failure and
leaves the field unset). -/
def parseIsoDate (s : String) : Option PyDateTime :=
  match (splitOnChar '-' s).map pyToNat with
  | [some y, some m, some d] =>
    if 1 ≤ m && m ≤ 12 && 1 ≤ d && d ≤ 31 then
      some ⟨(y : Int) * 10000 + m * 100 + d, 0⟩
    else none
  | _ => none

/-- `json.dumps` of the items list. -/
def itemsDumps (items : List (String × Amount)) : String :=
  String.intercalate ";" (items.map (fun p => p.1 ++ ":" ++ toString p.2))

/-- The category-matching loop of `process_receipt_ocr`: find the enum
member whose display value equals the parsed string. -/
def matchCategory (s : String) : Option ExpenseCategory :=
  expenseCategoryMembers.find? (fun cat => cat.value == s)

/-- Outcome of the field-merge step of `process_receipt_ocr` (lines
389-430): the receipt as mutated so far, the `extracted_fields` log
payload, and the pending exception if a `float()` call raised part-way
through. -/
structure MergeOut where
  receipt : Receipt
  fields : List (String × String)
  err : Option String
deriving DecidableEq, Repr

/-- The merge step of `process_receipt_ocr`: copy non-null parsed fields
onto the receipt in source order (vendor, date, total, tax, items,
category).  A failing `float()` aborts the merge mid-way, keeping the
assignments already made — faithful to attribute assignment on the ORM
object followed by the `db.commit()` in the `except` handler. -/
def mergeParsed (r : Receipt) (parsed : ParsedData) : MergeOut :=
  let r := if pyTruthyStr parsed.vendor then { r with vendor := parsed.vendor } else r
  let fields := if pyTruthyStr parsed.vendor then
      [("vendor", parsed.vendor.getD "")] else []
  let dateStep : Receipt × List (String × String) :=
    match parsed.date with
    | some s =>
      if s != "" then
        match parseIsoDate s with
        | some d => ({ r with date := some d }, fields ++ [("date", s)])
        | none => (r, fields)
      else (r, fields)
    | none => (r, fields)
  let r := dateStep.1
  let fields := dateStep.2
  match parsed.total_amount with
  | some jn =>
    (match pyFloat jn with
     | .error e => { receipt := r, fields := fields, err := some e }
     | .ok v =>
       let r := { r with total_amount := some v }
       let fields := fields ++ [("total_amount", toString v)]
       match parsed.tax_amount with
       | some jt =>
         (match pyFloat jt with
          | .error e => { receipt := r, fields := fields, err := some e }
          | .ok w => mergeTail { r with tax_amount := some w }
              (fields ++ [("tax_amount", toString w)]) parsed)
       | none => mergeTail r fields parsed)
  | none =>
    match parsed.tax_amount with
    | some jt =>
      (match pyFloat jt with
       | .error e => { receipt := r, fields := fields, err := some e }
       | .ok w => mergeTail { r with tax_amount := some w }
           (fields ++ [("tax_amount", toString w)]) parsed)
    | none => mergeTail r fields parsed
where
  /-- The items and category assignments, which cannot raise. -/
  mergeTail (r : Receipt) (fields : List (String × String))
      (parsed : ParsedData) : MergeOut :=
    let r := if !parsed.items.isEmpty then
        { r with items := some (itemsDumps parsed.items) } else r
    let fields := if !parsed.items.isEmpty then
        fields ++ [("items", itemsDumps parsed.items)] else fields
    match parsed.category with
    | some s =>
      if s != "" then
        match matchCategory s with
        | some cat =>
          { receipt := { r with category := some cat },
            fields := fields ++ [("category", s)], err := none }
        | none => { receipt := r, fields := fields, err := none }
      else { receipt := r, fields := fields, err := none }
    | none => { receipt := r, fields := fields, err := none }

/-- `app.services.ocr.process_receipt_ocr`.  External capabilities arrive
as arguments: `extractRes` is the outcome of `extract_text_from_receipt`
(raw text plus the preview URL that is non-`none` exactly for multi-page
PDF sources), `aiResult` the outcome of the OpenAI call inside
`parse_receipt_with_ai`.  Returns the raised-or-returned receipt and the
store as left by the committed writes. -/
def process_receipt_ocr (env : Env)
    (extractRes : Except String (String × Option String))
    (aiResult : Option ParsedData) (receipt_id : Nat) (db : DB) :
    Except String Receipt × DB :=
  match db.findById receipt_id with
  | none => (.error ("Receipt " ++ toString receipt_id ++ " not found"), db)
  | some receipt =>
    -- try block: set PROCESSING, commit, audit the transition
    let old_status := receipt.status.value
    let receipt := { receipt with status := ReceiptStatus.processing }
    let db := db.updateReceipt receipt
    match log_event env db (statusEvent receipt_id old_status receipt.status.value) with
    | .error e => processExcept env receipt_id receipt db e
    | .ok db =>
      match extractRes with
      | .error e => processExcept env receipt_id receipt db e
      | .ok (raw_text, preview_url) =>
        let receipt :=
          match preview_url with
          | some p => { receipt with image_url := p }
          | none => receipt
        let receipt := { receipt with ocr_raw_text := some raw_text }
        let db := db.updateReceipt receipt
        let parsed_data := parse_receipt_with_ai aiResult
        let merged := mergeParsed receipt parsed_data
        match merged.err with
        | some e => processExcept env receipt_id merged.receipt db e
        | none =>
          let receipt := merged.receipt
          let old_status := receipt.status.value
          let receipt := { receipt with status := ReceiptStatus.pending }
          let db := db.updateReceipt receipt
          match log_event env db (ocrCompletedEvent receipt_id merged.fields) with
          | .error e => processExcept env receipt_id receipt db e
          | .ok db =>
            match log_event env db (statusEvent receipt_id old_status receipt.status.value) with
            | .error e => processExcept env receipt_id receipt db e
            | .ok db =>
              let out := tryCheckDuplicates env receipt db
              (.ok out.1, out.2)
where
  /-- The `except` handler (lines 456-464): mark FAILED, commit, audit the
  transition, re-raise.  If the audit insert raises again, that exception
  replaces the original one (Python exception-during-handling). -/
  processExcept (env : Env) (receipt_id : Nat) (receipt : Receipt) (db : DB)
      (e : String) : Except String Receipt × DB :=
    let old_status := receipt.status.value
    let receipt := { receipt with status := ReceiptStatus.failed }
    let db := db.updateReceipt receipt
    match log_event env db (statusEvent receipt_id old_status receipt.status.value) with
    | .error e2 => (.error e2, db)
    | .ok db => (.error e, db)

/-- Model of the object-store collaborator `upload_file_to_gcs` (excluded
from the core by the spec): a deterministic URL for the stored object. -/
def upload_file_to_gcs (filename : String) (user_id : Nat) : String :=
  "https://storage.googleapis.com/expense-flow/receipts/user_" ++
    toString user_id ++ "/" ++ filename

/-- `POST /receipts/upload` (`upload_receipt_image`).  `canCreate` is the
outcome of the subscription-limit check (quota enforcement is outside the
spec's core), `now` the request wall clock; the OCR capabilities are passed
through to `process_receipt_ocr`. -/
def upload_receipt_image (env : Env) (canCreate : Bool)
    (extractRes : Except String (String × Option String))
    (aiResult : Option ParsedData) (filename : String) (uid : Nat)
    (now : PyDateTime) (db : DB) : Except ApiErr Receipt × DB :=
  if !canCreate then (.error .forbidden, db)
  else
    let file_url := upload_file_to_gcs filename uid
    let new_receipt : Receipt :=
      { id := db.next_receipt_id, user_id := uid, image_url := file_url,
        status := ReceiptStatus.pending, created_at := now.ts }
    let db := { db with receipts := db.receipts ++ [new_receipt],
                        next_receipt_id := db.next_receipt_id + 1 }
    match log_event env db (createdEvent new_receipt.id uid "manual") with
    | .error e => (.error (.internal e), db)
    | .ok db =>
      match process_receipt_ocr env extractRes aiResult new_receipt.id db with
      | (.ok processed, db) => (.ok processed, db)
      | (.error _, db) =>
        -- return the receipt even if OCR fails (user can retry later)
        match db.findById new_receipt.id with
        | some r =>
          let r := { r with status := ReceiptStatus.failed }
          (.ok r, db.updateReceipt r)
        | none => (.ok new_receipt, db)

/-- `POST /receipts/receipt_id/approve` (`approve_receipt`). -/
def approve_receipt (env : Env) (rid uid : Nat) (db : DB) :
    Except ApiErr Receipt × DB :=
  match db.findActive rid uid with
  | none => (.error .notFound, db)
  | some receipt =>
    if receipt.status != ReceiptStatus.pending then (.error .badRequest, db)
    else
      let old_status := receipt.status.value
      let receipt := { receipt with status := ReceiptStatus.completed }
      let db := db.updateReceipt receipt
      match log_event env db (approvedEvent rid uid) with
      | .error e => (.error (.internal e), db)
      | .ok db =>
        match log_event env db (statusEvent rid old_status receipt.status.value) with
        | .error e => (.error (.internal e), db)
        | .ok db =>
          let out := tryCheckDuplicates env receipt db
          (.ok out.1, out.2)

/-- Body of `PUT /receipts/receipt_id` (`ReceiptUpdate` after
`model_dump(exclude_unset=True)`): the outer `Option` is field presence in
the request, the inner one the JSON-null-ability of the value itself
(`is_business` is declared non-nullable). -/
structure ReceiptUpdate where
  vendor : Option (Option String) := none
  date : Option (Option PyDateTime) := none
  currency : Option (Option String) := none
  original_amount : Option (Option Amount) := none
  exchange_rate : Option (Option Amount) := none
  exchange_rate_date : Option (Option PyDateTime) := none
  total_amount : Option (Option Amount) := none
  tax_amount : Option (Option Amount) := none
  items : Option (Option String) := none
  category : Option (Option ExpenseCategory) := none
  notes : Option (Option String) := none
  is_business : Option Int := none
deriving DecidableEq, Repr

/-- The `setattr` loop of `update_receipt`: apply every provided field. -/
def applyUpdate (r : Receipt) (u : ReceiptUpdate) : Receipt :=
  { r with
    vendor := u.vendor.getD r.vendor,
    date := u.date.getD r.date,
    currency := u.currency.getD r.currency,
    original_amount := u.original_amount.getD r.original_amount,
    exchange_rate := u.exchange_rate.getD r.exchange_rate,
    exchange_rate_date := u.exchange_rate_date.getD r.exchange_rate_date,
    total_amount := u.total_amount.getD r.total_amount,
    tax_amount := u.tax_amount.getD r.tax_amount,
    items := u.items.getD r.items,
    category := u.category.getD r.category,
    notes := u.notes.getD r.notes,
    is_business := u.is_business.getD r.is_business }

/-- Python `str(x)` over an optional already-stringified value:
`str(None) = "None"`. -/
def pyStrOpt : Option String → String
  | none => "None"
  | some s => s

/-- One iteration of the change-logging loop of `update_receipt`: emit one
`field_updated` event when the stringified old and new values differ.
`oldRaw`/`newRaw` are `None`-preserving stringifications of the compared
values (`log_event` stores `str(x)` when `x` is not `None`, else NULL). -/
def fieldChangeEvents (rid uid : Nat) (fname : String)
    (oldRaw newRaw : Option String) : List AuditEvent :=
  if pyStrOpt oldRaw == pyStrOpt newRaw then []
  else [fieldUpdatedEvent rid uid fname oldRaw newRaw]

/-- Events for one provided update field (`none` when the request did not
set the field). -/
def providedEvents {α : Type} (toStr : α → String) (rid uid : Nat)
    (fname : String) (oldRaw : Option String) (provided : Option (Option α)) :
    List AuditEvent :=
  match provided with
  | none => []
  | some v => fieldChangeEvents rid uid fname oldRaw (v.map toStr)

/-- The full change-logging loop of `update_receipt` (lines 429-443), in
`update_data` iteration order.  The `old_values` dict captured before the
update tracks only vendor/date/total_amount/tax_amount/category/notes/
is_business; for every other updated field `old_values.get(field)` is
`None`. -/
def updateEvents (r : Receipt) (u : ReceiptUpdate) (rid uid : Nat) :
    List AuditEvent :=
  providedEvents id rid uid "vendor" r.vendor u.vendor ++
  providedEvents dtStr rid uid "date" (r.date.map dtStr) u.date ++
  providedEvents id rid uid "currency" none u.currency ++
  providedEvents toString rid uid "original_amount" none u.original_amount ++
  providedEvents toString rid uid "exchange_rate" none u.exchange_rate ++
  providedEvents dtStr rid uid "exchange_rate_date" none u.exchange_rate_date ++
  providedEvents toString rid uid "total_amount"
    (r.total_amount.map toString) u.total_amount ++
  providedEvents toString rid uid "tax_amount"
    (r.tax_amount.map toString) u.tax_amount ++
  providedEvents id rid uid "items" none u.items ++
  providedEvents ExpenseCategory.value rid uid "category"
    (r.category.map ExpenseCategory.value) u.category ++
  providedEvents id rid uid "notes" r.notes u.notes ++
  (match u.is_business with
   | none => []
   | some v =>
     fieldChangeEvents rid uid "is_business"
       (some (toString r.is_business)) (some (toString v)))

/-- Sequential audit appends that stop at the first failing insert,
keeping the rows already committed. -/
def logEventsSeq (env : Env) (db : DB) : List AuditEvent → Option String × DB
  | [] => (none, db)
  | ev :: evs =>
    match log_event env db ev with
    | .error e => (some e, db)
    | .ok db => logEventsSeq env db evs

/-- `PUT /receipts/receipt_id` (`update_receipt`). -/
def update_receipt (env : Env) (rid uid : Nat) (u : ReceiptUpdate) (db : DB) :
    Except ApiErr Receipt × DB :=
  match db.findActive rid uid with
  | none => (.error .notFound, db)
  | some receipt =>
    let updated := applyUpdate receipt u
    let db := db.updateReceipt updated
    match logEventsSeq env db (updateEvents receipt u rid uid) with
    | (some e, db) => (.error (.internal e), db)
    | (none, db) =>
      if u.vendor.isSome || u.total_amount.isSome || u.date.isSome then
        let out := tryCheckDuplicates env updated db
        (.ok out.1, out.2)
      else
        (.ok updated, db)

/-- `DELETE /receipts/receipt_id` (`delete_receipt`): note the query has no
tombstone filter, and the deletion event is logged before the soft delete. -/
def delete_receipt (env : Env) (rid uid : Nat) (now : PyDateTime) (db : DB) :
    Except ApiErr Unit × DB :=
  match db.findOwned rid uid with
  | none => (.error .notFound, db)
  | some receipt =>
    match log_event env db (deletedEvent rid uid) with
    | .error e => (.error (.internal e), db)
    | .ok db =>
      let receipt := { receipt with deleted_at := some now }
      (.ok (), db.updateReceipt receipt)

/-- `POST /receipts/receipt_id/restore` (`restore_receipt`): the query
requires `deleted_at` to be set. -/
def restore_receipt (env : Env) (rid uid : Nat) (db : DB) :
    Except ApiErr Receipt × DB :=
  match db.receipts.find? (fun r =>
      r.id == rid && r.user_id == uid && r.deleted_at != none) with
  | none => (.error .notFound, db)
  | some receipt =>
    let receipt := { receipt with deleted_at := none }
    let db := db.updateReceipt receipt
    match log_event env db (restoredEvent rid uid) with
    | .error e => (.error (.internal e), db)
    | .ok db => (.ok receipt, db)

/-- `POST /receipts/receipt_id/dismiss-duplicate` (`dismiss_duplicate`). -/
def dismiss_duplicate (rid uid : Nat) (db : DB) :
    Except ApiErr Receipt × DB :=
  match db.findActive rid uid with
  | none => (.error .notFound, db)
  | some receipt =>
    let receipt := { receipt with duplicate_dismissed := 1 }
    (.ok receipt, db.updateReceipt receipt)

/-- `GET /receipts/receipt_id` (`get_receipt`). -/
def get_receipt (rid uid : Nat) (db : DB) : Except ApiErr Receipt :=
  match db.findActive rid uid with
  | none => .error .notFound
  | some receipt => .ok receipt

/-- Insertion step for the `created_at` descending order of the listing. -/
def insertByCreatedDesc (x : Receipt) : List Receipt → List Receipt
  | [] => [x]
  | y :: ys =>
    if decide (y.created_at < x.created_at) then x :: y :: ys
    else y :: insertByCreatedDesc x ys

/-- `ORDER BY created_at DESC` as an insertion sort. -/
def sortByCreatedDesc (l : List Receipt) : List Receipt :=
  l.foldr insertByCreatedDesc []

/-- `GET /receipts/` (`list_receipts`): owner filter, tombstone exclusion,
newest first, offset/limit pagination. -/
def list_receipts (uid : Nat) (skip limit : Nat) (db : DB) : List Receipt :=
  (((sortByCreatedDesc (db.receipts.filter (fun r =>
      r.user_id == uid && r.deleted_at == none))).drop skip).take limit)

/-- The base query of `GET /receipts/analytics` (lines 256-277): completed,
live receipts of the user, with the optional ISO date-range filters whose
parse failures are swallowed.  The aggregation that follows sums over
exactly this list. -/
def analytics_receipts (uid : Nat) (start_date end_date : Option String)
    (db : DB) : List Receipt :=
  let base := db.receipts.filter (fun r =>
    r.user_id == uid && r.status == ReceiptStatus.completed &&
    r.deleted_at == none)
  let base :=
    match start_date.bind parseIsoDate with
    | some s => base.filter (fun r =>
        match r.date with
        | none => false
        | some d => decide (s.day ≤ d.day))
    | none => base
  match end_date.bind parseIsoDate with
  | some e => base.filter (fun r =>
      match r.date with
      | none => false
      | some d => decide (d.day ≤ e.day))
  | none => base

/-- Python `s.strip(chars)` for a single strip character. -/
def pyStripChar (c : Char) (s : String) : String :=
  ⟨((s.data.dropWhile (· == c)).reverse.dropWhile (· == c)).reverse⟩

/-- Recipient normalization of `receive_email` (lines 118-119):
`to.split('<')[-1].strip('>') if '<' in to else to`, then `.lower().strip()`. -/
def parseRecipient (toAddr : String) : String :=
  let r := if toAddr.data.contains '<' then
      pyStripChar '>' ((splitOnChar '<' toAddr).getLastD toAddr)
    else toAddr
  pyStripWs (pyLower r)

/-- Insertion step for Python `sorted` over strings. -/
def insertStringAsc (s : String) : List String → List String
  | [] => [s]
  | t :: ts => if decide (s ≤ t) then s :: t :: ts else t :: insertStringAsc s ts

/-- Python `sorted` on a list of strings. -/
def sortStringsAsc (l : List String) : List String :=
  l.foldr insertStringAsc []

/-- One inbound attachment as it appears in the multipart form
(`attachment1`, `attachment2`, ...). -/
structure Attachment where
  filename : String
  size : Nat
deriving DecidableEq, Repr

/-- The form fields of the SendGrid inbound webhook request.
`attachments` is the declared attachment count form field; `files` holds
the `attachmentN` parts, so part `i` (1-based) exists when `i ≤ files.length`. -/
structure EmailMsg where
  /-- The `to` form field (`to` is a reserved token in Lean). -/
  to_addr : String
  from_email : Option String := none
  subject : String := ""
  attachments : Nat := 0
  files : List Attachment := []
deriving DecidableEq, Repr

/-- The attachment-name list of `receive_email` (lines 72-78): for each
declared index whose form part exists, the filename, or `fileN` when the
filename is falsy. -/
def attachmentNames (msg : EmailMsg) : List String :=
  (List.range' 1 msg.attachments).filterMap (fun i =>
    match msg.files[i-1]? with
    | some f => some (if f.filename != "" then f.filename else "file" ++ toString i)
    | none => none)

/-- The message fingerprint of `receive_email` (line 81):
recipient, sender, subject, declared attachment count and sorted
attachment filenames — wall-clock time deliberately excluded.  The md5
digest of this string is modelled by the string itself (md5 treated as
collision-free). -/
def emailFingerprint (msg : EmailMsg) : String :=
  msg.to_addr ++ ":" ++ pyStrOpt msg.from_email ++ ":" ++ msg.subject ++ ":" ++
    toString msg.attachments ++ ":" ++
    String.intercalate "," (sortStringsAsc (attachmentNames msg))

/-- `s[:255] if s else None` truncation used for the ledger's debug
columns. -/
def pyTrunc255 : Option String → Option String
  | none => none
  | some s => if s == "" then none else some ⟨s.data.take 255⟩

/-- Supported receipt-attachment extensions (`SUPPORTED_EXTENSIONS`). -/
def supportedExtension (filename : String) : Bool :=
  let ext := if filename.data.contains '.' then
      (splitOnChar '.' (pyLower filename)).getLastD "" else ""
  let extWithDot := "." ++ ext
  extWithDot == ".jpg" || extWithDot == ".jpeg" || extWithDot == ".png" ||
    extWithDot == ".pdf"

/-- `MAX_FILE_SIZE` (10 MiB). -/
def maxFileSize : Nat := 10 * 1024 * 1024

/-- Observable ordering of the two write kinds the idempotency argument
cares about inside one `receive_email` call. -/
inductive TraceOp where
  | fingerprintRecorded
  | receiptCreated (rid : Nat)
deriving DecidableEq, Repr

/-- The sender string used for the placeholder vendor
(`from_email or 'email'`). -/
def emailSenderName (from_email : Option String) : String :=
  if pyTruthyStr from_email then from_email.getD "" else "email"

/-- The notes column of an email-created receipt (lines 206). -/
def emailNotes (subject : String) (from_email : Option String) : String :=
  if subject != "" && pyTruthyStr from_email then
    "Subject: " ++ subject ++ "\n" ++ "Received via email from " ++
      from_email.getD ""
  else if pyTruthyStr from_email then
    "Received via email from " ++ from_email.getD ""
  else "Received via email"

/-- The receipt row created for one accepted email attachment
(lines 199-207): placeholder vendor from the sender, zero amount awaiting
OCR, ingestion wall-clock date, stored image URL. -/
def mkEmailReceipt (rid uid : Nat) (from_email : Option String)
    (subject : String) (now : PyDateTime) (image_url : String) : Receipt :=
  { id := rid, user_id := uid,
    vendor := some ("Receipt from " ++ emailSenderName from_email),
    total_amount := some 0,
    date := some now,
    category := none,
    image_url := image_url,
    notes := some (emailNotes subject from_email),
    created_at := now.ts }

/-- The per-attachment loop of `receive_email` (lines 158-227): skip
missing parts, unsupported extensions and oversized files; store the rest,
create one receipt per attachment and hand each to the background OCR
task.  Threads the store, the created-receipt id list and the trace. -/
def processAttachments (uid : Nat) (from_email : Option String)
    (subject : String) (now : PyDateTime) (files : List Attachment) :
    List Nat → DB × List Nat × List TraceOp → DB × List Nat × List TraceOp
  | [], acc => acc
  | i :: is, (db, created, trace) =>
    match files[i-1]? with
    | none => processAttachments uid from_email subject now files is (db, created, trace)
    | some f =>
      if !supportedExtension f.filename then
        processAttachments uid from_email subject now files is (db, created, trace)
      else if f.size > maxFileSize then
        processAttachments uid from_email subject now files is (db, created, trace)
      else
        let image_url := upload_file_to_gcs f.filename uid
        let receipt := mkEmailReceipt db.next_receipt_id uid from_email subject now image_url
        let db := { db with receipts := db.receipts ++ [receipt],
                            next_receipt_id := db.next_receipt_id + 1 }
        processAttachments uid from_email subject now files is
          (db, created ++ [receipt.id], trace ++ [.receiptCreated receipt.id])

/-- Response of the inbound-email endpoint. -/
structure EmailResponse where
  status : String
  receipt_ids : List Nat := []
deriving DecidableEq, Repr

/-- Result of one `receive_email` call: response, store, and the ordered
trace of fingerprint/creation writes. -/
structure EmailOut where
  resp : EmailResponse
  db : DB
  trace : List TraceOp
deriving DecidableEq, Repr

/-- `POST /email/inbound` (`receive_email`).  `now` is the request wall
clock (`datetime.now(timezone.utc)`). -/
def receive_email (msg : EmailMsg) (now : PyDateTime) (db : DB) : EmailOut :=
  let email_hash := emailFingerprint msg
  match db.processed_emails.find? (fun p => p.email_hash == email_hash) with
  | some _ => { resp := { status := "duplicate" }, db := db, trace := [] }
  | none =>
    let entry : ProcessedEmail :=
      { email_hash := email_hash,
        to_email := pyTrunc255 (some msg.to_addr),
        from_email := pyTrunc255 msg.from_email,
        subject := pyTrunc255 (some msg.subject),
        attachment_count := msg.attachments,
        processed_at := now.ts }
    let db := { db with processed_emails := db.processed_emails ++ [entry] }
    let trace : List TraceOp := [.fingerprintRecorded]
    -- retention cleanup: prune entries older than 7 days once the table
    -- holds more than 1000 rows
    let db :=
      if db.processed_emails.length > 1000 then
        let kept := db.processed_emails.filter
          (fun p => !(p.processed_at < now.ts - 7 * 86400))
        { db with processed_emails := kept }
      else db
    let recipient_email := parseRecipient msg.to_addr
    match db.users.find? (fun u => u.unique_receipt_email == some recipient_email) with
    | none => { resp := { status := "error" }, db := db, trace := trace }
    | some user =>
      if !user.is_active then
        { resp := { status := "error" }, db := db, trace := trace }
      else if msg.attachments == 0 then
        { resp := { status := "error" }, db := db, trace := trace }
      else
        let out := processAttachments user.id msg.from_email msg.subject now
          msg.files (List.range' 1 msg.attachments) (db, [], [])
        if out.2.1.isEmpty then
          { resp := { status := "error" }, db := out.1, trace := trace ++ out.2.2 }
        else
          { resp := { status := "success", receipt_ids := out.2.1 },
            db := out.1, trace := trace ++ out.2.2 }

/-! ## General lemmas about the embedded store operations -/

theorem find?_eq_of_unique {α : Type} (l : List α) (p : α → Bool) (a : α)
    (hmem : a ∈ l) (hpa : p a = true)
    (huniq : ∀ x ∈ l, p x = true → x = a) :
    l.find? p = some a := by
  induction l with
  | nil => cases hmem
  | cons h t ih =>
    cases hph : p h with
    | true =>
      have hha : h = a := huniq h (List.mem_cons_self h t) hph
      rw [List.find?_cons_of_pos _ hph, hha]
    | false =>
      have hat : a ∈ t := by
        rcases List.mem_cons.mp hmem with rfl | hmem2
        · rw [hpa] at hph; cases hph
        · exact hmem2
      rw [List.find?_cons_of_neg _ (by simp [hph])]
      exact ih hat (fun x hx hpx => huniq x (List.mem_cons_of_mem _ hx) hpx)

theorem find?_map_update (l : List Receipt) (rid : Nat) (r0 rr : Receipt)
    (h : l.find? (fun x => x.id == rid) = some r0) (hid : rr.id = rid) :
    (l.map (fun x => if x.id == rr.id then rr else x)).find?
      (fun x => x.id == rid) = some rr := by
  induction l with
  | nil => simp [List.find?] at h
  | cons x t ih =>
    by_cases hx : x.id = rid
    · simp only [List.map_cons]
      rw [if_pos (by simp [hx, hid])]
      rw [List.find?_cons_of_pos _ (by simp [hid])]
    · have hneg : (x.id == rid) = false := by simp [hx]
      rw [List.find?_cons_of_neg _ (by simp [hx])] at h
      simp only [List.map_cons]
      rw [if_neg (by simp [hid, hx])]
      rw [List.find?_cons_of_neg _ (by simp [hx])]
      exact ih h

theorem findById_updateReceipt (db : DB) (rid : Nat) (r0 rr : Receipt)
    (h : db.findById rid = some r0) (hid : rr.id = rid) :
    (db.updateReceipt rr).findById rid = some rr :=
  find?_map_update db.receipts rid r0 rr h hid

theorem updateReceipt_audit (db : DB) (r : Receipt) :
    (db.updateReceipt r).audit = db.audit := rfl

theorem updateReceipt_processed_emails (db : DB) (r : Receipt) :
    (db.updateReceipt r).processed_emails = db.processed_emails := rfl

theorem mem_updateReceipt_of_ne (db : DB) (rr x : Receipt)
    (hx : x ∈ (db.updateReceipt rr).receipts) (hne : x.id ≠ rr.id) :
    x ∈ db.receipts := by
  rcases List.mem_map.mp hx with ⟨y, hy, hyx⟩
  by_cases h : y.id = rr.id
  · rw [if_pos (by simp [h])] at hyx
    exact absurd (hyx ▸ rfl : x.id = rr.id) hne
  · rw [if_neg (by simp [h])] at hyx
    exact hyx ▸ hy

theorem mem_updateReceipt_self (db : DB) (rr r : Receipt)
    (hmem : r ∈ db.receipts) (hid : r.id = rr.id) :
    rr ∈ (db.updateReceipt rr).receipts := by
  have h := List.mem_map_of_mem (fun x => if x.id == rr.id then rr else x) hmem
  simp only [hid, beq_self_eq_true, if_true] at h
  exact h

theorem logEventsSeq_ok (env : Env) (h : env.auditFails = false) :
    ∀ (evs : List AuditEvent) (db : DB),
      logEventsSeq env db evs = (none, { db with audit := db.audit ++ evs }) := by
  intro evs
  induction evs with
  | nil => intro db; simp [logEventsSeq]
  | cons ev evs ih =>
    intro db
    simp only [logEventsSeq, log_event, h, Bool.false_eq_true, if_false]
    rw [ih]
    simp

theorem check_for_duplicates_skip (r : Receipt) (table : List Receipt)
    (h : !(pyTruthyStr r.vendor) || !(pyTruthyAmount r.total_amount)
          || r.date == none) :
    check_for_duplicates r table = (false, r) := by
  simp only [check_for_duplicates, h, if_true]

theorem check_for_duplicates_snd (r : Receipt) (table : List Receipt) :
    (check_for_duplicates r table).2 = r ∨
    ∃ d m, r.date = some d ∧ table.find? (dupFilter r d.day) = some m ∧
      (check_for_duplicates r table).2 =
        { r with duplicate_suspect := 1, duplicate_of_id := some m.id } := by
  unfold check_for_duplicates
  split
  · exact Or.inl rfl
  · split
    · exact Or.inl rfl
    · rename_i d hd
      cases hf : table.find? (dupFilter r d.day) with
      | none => exact Or.inl rfl
      | some m => exact Or.inr ⟨d, m, hd, hf, rfl⟩

theorem check_for_duplicates_frame (r : Receipt) (table : List Receipt) :
    (check_for_duplicates r table).2.id = r.id ∧
    (check_for_duplicates r table).2.user_id = r.user_id ∧
    (check_for_duplicates r table).2.status = r.status ∧
    (check_for_duplicates r table).2.vendor = r.vendor ∧
    (check_for_duplicates r table).2.total_amount = r.total_amount ∧
    (check_for_duplicates r table).2.date = r.date ∧
    (check_for_duplicates r table).2.image_url = r.image_url ∧
    (check_for_duplicates r table).2.ocr_raw_text = r.ocr_raw_text ∧
    (check_for_duplicates r table).2.deleted_at = r.deleted_at := by
  rcases check_for_duplicates_snd r table with h | ⟨d, m, _, _, h⟩ <;>
    rw [h] <;> simp

theorem tryCheckDuplicates_audit (env : Env) (r : Receipt) (db : DB) :
    (tryCheckDuplicates env r db).2.audit = db.audit := by
  unfold tryCheckDuplicates
  split
  · rfl
  · exact updateReceipt_audit _ _

theorem tryCheckDuplicates_status (env : Env) (r : Receipt) (db : DB) :
    (tryCheckDuplicates env r db).1.status = r.status := by
  unfold tryCheckDuplicates
  split
  · rfl
  · exact (check_for_duplicates_frame r db.receipts).2.2.1

theorem mem_insertByCreatedDesc {x y : Receipt} {l : List Receipt} :
    y ∈ insertByCreatedDesc x l ↔ y = x ∨ y ∈ l := by
  induction l with
  | nil => simp [insertByCreatedDesc]
  | cons h t ih =>
    simp only [insertByCreatedDesc]
    split
    · simp
    · simp only [List.mem_cons, ih]
      tauto

theorem mem_sortByCreatedDesc {y : Receipt} {l : List Receipt} :
    y ∈ sortByCreatedDesc l ↔ y ∈ l := by
  induction l with
  | nil => simp [sortByCreatedDesc]
  | cons h t ih =>
    show y ∈ insertByCreatedDesc h (sortByCreatedDesc t) ↔ _
    rw [mem_insertByCreatedDesc]
    simp [ih]

theorem processAttachments_frame (uid : Nat) (from_email : Option String)
    (subject : String) (now : PyDateTime) (files : List Attachment) :
    ∀ (is : List Nat) (db : DB) (created : List Nat) (trace : List TraceOp),
      (processAttachments uid from_email subject now files is (db, created, trace)).1.processed_emails
        = db.processed_emails ∧
      (processAttachments uid from_email subject now files is (db, created, trace)).1.audit
        = db.audit ∧
      (processAttachments uid from_email subject now files is (db, created, trace)).1.users
        = db.users := by
  intro is
  induction is with
  | nil => intro db created trace; exact ⟨rfl, rfl, rfl⟩
  | cons i is ih =>
    intro db created trace
    simp only [processAttachments]
    split
    · exact ih db created trace
    · split
      · exact ih db created trace
      · split
        · exact ih db created trace
        · exact ih _ _ _

theorem processAttachments_receipts (uid : Nat) (from_email : Option String)
    (subject : String) (now : PyDateTime) (files : List Attachment) :
    ∀ (is : List Nat) (db : DB) (created : List Nat) (trace : List TraceOp)
      (r : Receipt),
      r ∈ (processAttachments uid from_email subject now files is (db, created, trace)).1.receipts →
      r ∈ db.receipts ∨
        ∃ rid url, r = mkEmailReceipt rid uid from_email subject now url := by
  intro is
  induction is with
  | nil => intro db created trace r hr; exact Or.inl hr
  | cons i is ih =>
    intro db created trace r hr
    simp only [processAttachments] at hr
    split at hr
    · exact ih db created trace r hr
    · split at hr
      · exact ih db created trace r hr
      · split at hr
        · exact ih db created trace r hr
        · rcases ih _ _ _ r hr with hmem | hnew
          · rcases List.mem_append.mp hmem with hold | hnewone
            · exact Or.inl hold
            · rcases List.mem_singleton.mp hnewone with rfl
              exact Or.inr ⟨db.next_receipt_id, _, rfl⟩
          · exact Or.inr hnew

theorem mergeTail_receipt_id (r : Receipt) (fields : List (String × String))
    (p : ParsedData) : (mergeParsed.mergeTail r fields p).receipt.id = r.id := by
  unfold mergeParsed.mergeTail
  repeat' split
  all_goals simp

theorem mergeTail_receipt_image_url (r : Receipt) (fields : List (String × String))
    (p : ParsedData) :
    (mergeParsed.mergeTail r fields p).receipt.image_url = r.image_url := by
  unfold mergeParsed.mergeTail
  repeat' split
  all_goals simp

theorem mergeTail_receipt_ocr_raw_text (r : Receipt) (fields : List (String × String))
    (p : ParsedData) :
    (mergeParsed.mergeTail r fields p).receipt.ocr_raw_text = r.ocr_raw_text := by
  unfold mergeParsed.mergeTail
  repeat' split
  all_goals simp

theorem mergeTail_receipt_status (r : Receipt) (fields : List (String × String))
    (p : ParsedData) :
    (mergeParsed.mergeTail r fields p).receipt.status = r.status := by
  unfold mergeParsed.mergeTail
  repeat' split
  all_goals simp

theorem mergeTail_receipt_deleted_at (r : Receipt) (fields : List (String × String))
    (p : ParsedData) :
    (mergeParsed.mergeTail r fields p).receipt.deleted_at = r.deleted_at := by
  unfold mergeParsed.mergeTail
  repeat' split
  all_goals simp

theorem mergeParsed_receipt_id (r : Receipt) (p : ParsedData) :
    (mergeParsed r p).receipt.id = r.id := by
  unfold mergeParsed
  repeat' split
  all_goals simp [mergeTail_receipt_id]

theorem mergeParsed_receipt_image_url (r : Receipt) (p : ParsedData) :
    (mergeParsed r p).receipt.image_url = r.image_url := by
  unfold mergeParsed
  repeat' split
  all_goals simp [mergeTail_receipt_image_url]

theorem mergeParsed_receipt_ocr_raw_text (r : Receipt) (p : ParsedData) :
    (mergeParsed r p).receipt.ocr_raw_text = r.ocr_raw_text := by
  unfold mergeParsed
  repeat' split
  all_goals simp [mergeTail_receipt_ocr_raw_text]

theorem mergeParsed_receipt_status (r : Receipt) (p : ParsedData) :
    (mergeParsed r p).receipt.status = r.status := by
  unfold mergeParsed
  repeat' split
  all_goals simp [mergeTail_receipt_status]

theorem mergeParsed_receipt_deleted_at (r : Receipt) (p : ParsedData) :
    (mergeParsed r p).receipt.deleted_at = r.deleted_at := by
  unfold mergeParsed
  repeat' split
  all_goals simp [mergeTail_receipt_deleted_at]


theorem processExcept_eq (env : Env) (rid : Nat) (r : Receipt) (db : DB)
    (e : String) (haudit : env.auditFails = false) :
    process_receipt_ocr.processExcept env rid r db e =
      (.error e,
        { db.updateReceipt { r with status := ReceiptStatus.failed } with
            audit := db.audit ++
              [statusEvent rid r.status.value ReceiptStatus.failed.value] }) := by
  unfold process_receipt_ocr.processExcept
  simp only [log_event, haudit, Bool.false_eq_true, if_false]
  rfl

/-- Claim C1: if a pipeline run of `process_receipt_ocr` raises after text
extraction has succeeded, the receipt's status is set to FAILED, a
status-changed audit event (processing to failed) is emitted last, and the
exception is re-raised to the caller; the receipt row is not rolled back —
its raw extracted text stays populated and, for a non-PDF source (no
generated preview image), its image reference is unchanged. -/
theorem c1_pipeline_failure_preserves_receipt (env : Env) (raw : String)
    (preview : Option String) (aiResult : Option ParsedData)
    (rid : Nat) (db db2 : DB) (r0 : Receipt) (e : String)
    (haudit : env.auditFails = false)
    (hfind : db.findById rid = some r0)
    (hrun : process_receipt_ocr env (.ok (raw, preview)) aiResult rid db
              = (.error e, db2)) :
    ∃ rf, db2.findById rid = some rf ∧
      rf.status = ReceiptStatus.failed ∧
      rf.ocr_raw_text = some raw ∧
      (preview = none → rf.image_url = r0.image_url) ∧
      db2.audit.getLast? =
        some (statusEvent rid ReceiptStatus.processing.value
          ReceiptStatus.failed.value) := by
  have hid : r0.id = rid := by
    have h := List.find?_some hfind
    simpa using h
  have hfind2 : db.receipts.find? (fun x => x.id == rid) = some r0 := hfind
  cases preview with
  | none =>
    unfold process_receipt_ocr at hrun
    rw [hfind] at hrun
    simp only [log_event, haudit, Bool.false_eq_true, if_false] at hrun
    split at hrun
    · rename_i m hmerge
      rw [processExcept_eq env rid _ _ m haudit] at hrun
      simp only [Prod.mk.injEq, Except.error.injEq] at hrun
      obtain ⟨rfl, rfl⟩ := hrun
      refine ⟨{ (mergeParsed { r0 with status := ReceiptStatus.processing, ocr_raw_text := some raw } (parse_receipt_with_ai aiResult)).receipt with status := ReceiptStatus.failed }, ?_, ?_, ?_, ?_, ?_⟩
      · have h1 : DB.findById (db.updateReceipt { r0 with status := ReceiptStatus.processing }) rid = some { r0 with status := ReceiptStatus.processing } := findById_updateReceipt db rid r0 _ hfind (by simp [hid])
        have h2 : DB.findById ((db.updateReceipt { r0 with status := ReceiptStatus.processing }).updateReceipt { r0 with status := ReceiptStatus.processing, ocr_raw_text := some raw }) rid = some { r0 with status := ReceiptStatus.processing, ocr_raw_text := some raw } := findById_updateReceipt _ rid _ _ h1 (by simp [hid])
        exact findById_updateReceipt _ rid _ _ h2 (by simp [mergeParsed_receipt_id, hid])
      · simp
      · simp [mergeParsed_receipt_ocr_raw_text]
      · intro _
        simp [mergeParsed_receipt_image_url]
      · simp [mergeParsed_receipt_status, List.getLast?_concat]
    · simp at hrun
  | some p =>
    unfold process_receipt_ocr at hrun
    rw [hfind] at hrun
    simp only [log_event, haudit, Bool.false_eq_true, if_false] at hrun
    split at hrun
    · rename_i m hmerge
      rw [processExcept_eq env rid _ _ m haudit] at hrun
      simp only [Prod.mk.injEq, Except.error.injEq] at hrun
      obtain ⟨rfl, rfl⟩ := hrun
      refine ⟨{ (mergeParsed { r0 with status := ReceiptStatus.processing, image_url := p, ocr_raw_text := some raw } (parse_receipt_with_ai aiResult)).receipt with status := ReceiptStatus.failed }, ?_, ?_, ?_, ?_, ?_⟩
      · have h1 : DB.findById (db.updateReceipt { r0 with status := ReceiptStatus.processing }) rid = some { r0 with status := ReceiptStatus.processing } := findById_updateReceipt db rid r0 _ hfind (by simp [hid])
        have h2 : DB.findById ((db.updateReceipt { r0 with status := ReceiptStatus.processing }).updateReceipt { r0 with status := ReceiptStatus.processing, image_url := p, ocr_raw_text := some raw }) rid = some { r0 with status := ReceiptStatus.processing, image_url := p, ocr_raw_text := some raw } := findById_updateReceipt _ rid _ _ h1 (by simp [hid])
        exact findById_updateReceipt _ rid _ _ h2 (by simp [mergeParsed_receipt_id, hid])
      · simp
      · simp [mergeParsed_receipt_ocr_raw_text]
      · intro h
        cases h
      · simp [mergeParsed_receipt_status, List.getLast?_concat]
    · simp at hrun

/-- Decidable equality for `Except`, for concrete witness runs. -/
instance {e a : Type} [DecidableEq e] [DecidableEq a] : DecidableEq (Except e a) := fun x y =>
  match x, y with
  | .ok u, .ok v =>
    if h : u = v then isTrue (by rw [h]) else isFalse (fun hc => by cases hc; exact h rfl)
  | .error u, .error v =>
    if h : u = v then isTrue (by rw [h]) else isFalse (fun hc => by cases hc; exact h rfl)
  | .ok _, .error _ => isFalse (fun hc => by cases hc)
  | .error _, .ok _ => isFalse (fun hc => by cases hc)

/-- Concrete receipt for the C1 witness run. -/
def c1wReceipt : Receipt := { id := 1, user_id := 1, image_url := "img.jpg" }

/-- Concrete store for the C1 witness run. -/
def c1wDB : DB := { receipts := [c1wReceipt] }

/-- Parse result whose `total_amount` makes the merge step's `float()`
raise. -/
def c1wParsed : ParsedData := { total_amount := some (JsonNum.nonNumeric "abc") }

theorem c1_witness :
    ∃ rf,
      ((process_receipt_ocr env0 (Except.ok ("RAW", none)) (some c1wParsed) 1
          c1wDB).2).findById 1 = some rf ∧
      rf.status = ReceiptStatus.failed ∧
      rf.ocr_raw_text = some "RAW" ∧
      ((none : Option String) = none → rf.image_url = c1wReceipt.image_url) ∧
      ((process_receipt_ocr env0 (Except.ok ("RAW", none)) (some c1wParsed) 1
          c1wDB).2).audit.getLast? =
        some (statusEvent 1 ReceiptStatus.processing.value
          ReceiptStatus.failed.value) :=
  c1_pipeline_failure_preserves_receipt env0 "RAW" none (some c1wParsed) 1
    c1wDB _ c1wReceipt "could not convert to float: abc" rfl (by decide)
    (by decide)

theorem check_for_duplicates_cases (r : Receipt) (table : List Receipt) :
    (check_for_duplicates r table = (false, r)) ∨
    (∃ d m, r.date = some d ∧ table.find? (dupFilter r d.day) = some m ∧
      check_for_duplicates r table =
        (true, { r with duplicate_suspect := 1, duplicate_of_id := some m.id })) := by
  unfold check_for_duplicates
  split
  · exact Or.inl rfl
  · split
    · exact Or.inl rfl
    · rename_i d hd
      cases hf : table.find? (dupFilter r d.day) with
      | none => exact Or.inl rfl
      | some m => exact Or.inr ⟨d, m, hd, hf, rfl⟩

/-- Claim C8: `check_for_duplicates` never clears a duplicate flag: when a
required field is absent (Python-falsy) or no candidate matches, it returns
`False` and leaves the receipt — in particular its `duplicate_suspect` and
`duplicate_of_id` fields — unchanged, so a previously flagged receipt stays
flagged with its stale reference. -/
theorem c8_detector_never_clears_flag (r : Receipt) (table : List Receipt) :
    ((check_for_duplicates r table).1 = false →
      (check_for_duplicates r table).2 = r) ∧
    ((pyTruthyStr r.vendor = false ∨ pyTruthyAmount r.total_amount = false ∨
        r.date = none) →
      (check_for_duplicates r table).1 = false) ∧
    ((∀ d, r.date = some d → table.find? (dupFilter r d.day) = none) →
      (check_for_duplicates r table).1 = false) := by
  refine ⟨?_, ?_, ?_⟩
  · intro hfalse
    rcases check_for_duplicates_cases r table with h | ⟨d, m, hd, hf, h⟩
    · rw [h]
    · rw [h] at hfalse
      cases hfalse
  · intro h
    have hc : (!(pyTruthyStr r.vendor) || !(pyTruthyAmount r.total_amount)
        || r.date == none) = true := by
      rcases h with h | h | h <;> simp [h]
    rw [check_for_duplicates_skip r table hc]
  · intro h
    rcases check_for_duplicates_cases r table with hc | ⟨d, m, hd, hf, hc⟩
    · rw [hc]
    · rw [h d hd] at hf
      cases hf

/-- Receipt for the C8 witness: already flagged, no candidates around. -/
def c8wReceipt : Receipt :=
  { id := 3, user_id := 1, image_url := "u", vendor := some "V",
    total_amount := some 5, date := some ⟨100, 0⟩,
    duplicate_suspect := 1, duplicate_of_id := some 2 }

theorem c8_witness :
    (check_for_duplicates c8wReceipt []).1 = false ∧
    (check_for_duplicates c8wReceipt []).2 = c8wReceipt ∧
    c8wReceipt.duplicate_suspect = 1 := by
  have h := c8_detector_never_clears_flag c8wReceipt []
  have hfalse : (check_for_duplicates c8wReceipt []).1 = false :=
    h.2.2 (fun d hd => rfl)
  exact ⟨hfalse, h.1 hfalse, by decide⟩

/-- Subject receipt for the C4 counterexample: soft-deleted, yet with
vendor, amount and date all present. -/
def c4Subject : Receipt :=
  { id := 2, user_id := 1, image_url := "u2", vendor := some "Acme",
    total_amount := some 4250, date := some ⟨20260201, 30⟩,
    deleted_at := some ⟨20260301, 0⟩ }

/-- A live matching candidate for the C4 counterexample. -/
def c4Candidate : Receipt :=
  { id := 1, user_id := 1, image_url := "u1", vendor := some "Acme",
    total_amount := some 4250, date := some ⟨20260201, 99⟩ }

/-- The flagged result of the C4 counterexample run. -/
def c4Flagged : Receipt :=
  { c4Subject with duplicate_suspect := 1, duplicate_of_id := some 1 }

/-- Claim C4 counterexample: the duplicate check runs — and flags — a
soft-deleted subject receipt, refuting "runs only when ... the receipt is
not soft-deleted": the guard checks only vendor/amount/date presence. -/
theorem c4_counterexample :
    c4Subject.deleted_at ≠ none ∧
    check_for_duplicates c4Subject [c4Candidate] = (true, c4Flagged) := by
  decide

theorem sqlEqOpt_eq {α : Type} [BEq α] [LawfulBEq α] {a b : Option α}
    (h : sqlEqOpt a b = true) : a = b := by
  cases a <;> cases b <;> simp [sqlEqOpt] at h ⊢
  exact h

/-- Claim C4 (amended): the duplicate check short-circuits exactly when
vendor, amount or date is absent (Python-falsy: null or empty vendor, null
or zero amount, null date) — it does not test the subject's own tombstone;
when it flags, the stored reference is the first table row matching on same
user, different id, live (not soft-deleted), exact vendor and amount
equality and the same calendar date; when it does not flag, the receipt is
unchanged; and persisting the flagged subject modifies no other row — in
particular never the matched receipt. -/
theorem c4_duplicate_check_amended (r : Receipt) (db : DB) :
    ((pyTruthyStr r.vendor = false ∨ pyTruthyAmount r.total_amount = false ∨
        r.date = none) →
      check_for_duplicates r db.receipts = (false, r)) ∧
    ((check_for_duplicates r db.receipts).1 = true →
      ∃ d m, r.date = some d ∧
        db.receipts.find? (dupFilter r d.day) = some m ∧
        m.user_id = r.user_id ∧ m.id ≠ r.id ∧ m.deleted_at = none ∧
        m.vendor = r.vendor ∧ m.total_amount = r.total_amount ∧
        (∃ dm, m.date = some dm ∧ dm.day = d.day) ∧
        (check_for_duplicates r db.receipts).2 =
          { r with duplicate_suspect := 1, duplicate_of_id := some m.id }) ∧
    ((check_for_duplicates r db.receipts).1 = false →
      (check_for_duplicates r db.receipts).2 = r) ∧
    (∀ x ∈ (db.updateReceipt (check_for_duplicates r db.receipts).2).receipts,
      x.id ≠ r.id → x ∈ db.receipts) := by
  refine ⟨?_, ?_, ?_, ?_⟩
  · intro h
    apply check_for_duplicates_skip
    rcases h with h | h | h <;> simp [h]
  · intro htrue
    rcases check_for_duplicates_cases r db.receipts with h | ⟨d, m, hd, hf, h⟩
    · rw [h] at htrue
      cases htrue
    · have hm := List.find?_some hf
      unfold dupFilter at hm
      simp only [Bool.and_eq_true, beq_iff_eq, bne_iff_ne, ne_eq] at hm
      obtain ⟨⟨⟨⟨⟨huid, hne⟩, hdel⟩, hv⟩, ha⟩, hdate⟩ := hm
      refine ⟨d, m, hd, hf, huid, hne, ?_, sqlEqOpt_eq hv, sqlEqOpt_eq ha,
        ?_, by rw [h]⟩
      · simpa using hdel
      · cases hmd : m.date with
        | none =>
          rw [hmd] at hdate
          cases hdate
        | some dm =>
          rw [hmd] at hdate
          exact ⟨dm, rfl, by simpa using hdate⟩
  · exact (c8_detector_never_clears_flag r db.receipts).1
  · intro x hx hne
    apply mem_updateReceipt_of_ne db _ x hx
    rw [(check_for_duplicates_frame r db.receipts).1]
    exact hne

/-- Live subject for the C4 amended witness. -/
def c4wSubject : Receipt :=
  { id := 2, user_id := 1, image_url := "u2", vendor := some "Acme",
    total_amount := some 4250, date := some ⟨20260201, 30⟩ }

/-- Store for the C4 amended witness. -/
def c4wDB : DB := { receipts := [c4Candidate, c4wSubject] }

theorem c4_amended_witness :
    ∃ d m, c4wSubject.date = some d ∧
      c4wDB.receipts.find? (dupFilter c4wSubject d.day) = some m ∧
      m.user_id = c4wSubject.user_id ∧ m.id ≠ c4wSubject.id ∧
      m.deleted_at = none ∧ m.vendor = c4wSubject.vendor ∧
      m.total_amount = c4wSubject.total_amount ∧
      (∃ dm, m.date = some dm ∧ dm.day = d.day) ∧
      (check_for_duplicates c4wSubject c4wDB.receipts).2 =
        { c4wSubject with duplicate_suspect := 1,
                          duplicate_of_id := some m.id } :=
  (c4_duplicate_check_amended c4wSubject c4wDB).2.1 (by decide)

/-- Claim C9: every receipt the inbound-email front door creates carries
non-empty placeholder values — vendor "Receipt from sender", a zero total
amount, and the ingestion wall-clock date — and, because the duplicate
detector treats a zero amount as absent, such a receipt is never flagged
by any duplicate check. -/
theorem c9_email_placeholder_fields (msg : EmailMsg) (now : PyDateTime)
    (db : DB) (r : Receipt)
    (hmem : r ∈ (receive_email msg now db).db.receipts)
    (hnew : r ∉ db.receipts) :
    r.vendor = some ("Receipt from " ++ emailSenderName msg.from_email) ∧
    r.total_amount = some 0 ∧
    r.date = some now ∧
    ∀ table, check_for_duplicates r table = (false, r) := by
  have hshape : ∃ rid uid url,
      r = mkEmailReceipt rid uid msg.from_email msg.subject now url := by
    unfold receive_email at hmem
    simp only [] at hmem
    repeat' split at hmem
    all_goals
      first
        | exact absurd hmem hnew
        | (rcases processAttachments_receipts _ _ _ _ _ _ _ _ _ _ hmem with
            hold | ⟨rid, url, rfl⟩
           · exact absurd hold hnew
           · exact ⟨rid, _, url, rfl⟩)
  obtain ⟨rid, uid, url, rfl⟩ := hshape
  refine ⟨rfl, rfl, rfl, ?_⟩
  intro table
  apply check_for_duplicates_skip
  simp [mkEmailReceipt, pyTruthyAmount]

/-- Inbound message for the C9 witness. -/
def c9wMsg : EmailMsg :=
  { to_addr := "rcpt@x.com", from_email := some "alice@y.com", subject := "hi",
    attachments := 1, files := [{ filename := "a.jpg", size := 10 }] }

/-- Store for the C9 witness: one account with the forwarding address. -/
def c9wDB : DB :=
  { users := [{ id := 7, email := "a@y.com",
                unique_receipt_email := some "rcpt@x.com" }] }

/-- The receipt the C9 witness run creates. -/
def c9wReceipt : Receipt :=
  mkEmailReceipt 1 7 (some "alice@y.com") "hi" ⟨5, 0⟩
    (upload_file_to_gcs "a.jpg" 7)

theorem c9_witness :
    c9wReceipt.vendor =
      some ("Receipt from " ++ emailSenderName c9wMsg.from_email) ∧
    c9wReceipt.total_amount = some 0 ∧
    c9wReceipt.date = some ⟨5, 0⟩ ∧
    ∀ table, check_for_duplicates c9wReceipt table = (false, c9wReceipt) :=
  c9_email_placeholder_fields c9wMsg ⟨5, 0⟩ c9wDB c9wReceipt (by decide)
    (by decide)

/-- Claim C10: restore succeeds only on a soft-deleted receipt — on a live
receipt it signals not-found and changes nothing; on a soft-deleted one it
clears the tombstone and appends a restoration audit event. -/
theorem c10_restore_only_deleted (env : Env) (uid : Nat) (db : DB)
    (r : Receipt)
    (haudit : env.auditFails = false)
    (hmem : r ∈ db.receipts) (huser : r.user_id = uid)
    (huniq : ∀ x ∈ db.receipts, x.id = r.id → x = r) :
    (r.deleted_at = none →
      restore_receipt env r.id uid db = (.error .notFound, db)) ∧
    (∀ t, r.deleted_at = some t →
      restore_receipt env r.id uid db =
        (.ok { r with deleted_at := none },
          { db.updateReceipt { r with deleted_at := none } with
              audit := db.audit ++ [restoredEvent r.id uid] })) := by
  constructor
  · intro hdel
    have hnone : db.receipts.find? (fun x =>
        x.id == r.id && x.user_id == uid && x.deleted_at != none) = none := by
      apply List.find?_eq_none.mpr
      intro x hx
      by_cases hxid : x.id = r.id
      · have hxr := huniq x hx hxid
        subst hxr
        simp [hdel]
      · simp [hxid]
    unfold restore_receipt
    rw [hnone]
  · intro t hdel
    have hsome : db.receipts.find? (fun x =>
        x.id == r.id && x.user_id == uid && x.deleted_at != none) = some r := by
      apply find?_eq_of_unique db.receipts _ r hmem
      · simp [huser, hdel]
      · intro x hx hpx
        simp only [Bool.and_eq_true, beq_iff_eq] at hpx
        exact huniq x hx hpx.1.1
    unfold restore_receipt
    rw [hsome]
    simp only [log_event, haudit, Bool.false_eq_true, if_false]
    rfl

/-- Soft-deleted receipt for the C10 witness. -/
def c10wReceipt : Receipt :=
  { id := 4, user_id := 2, image_url := "u", deleted_at := some ⟨9, 0⟩ }

/-- Store for the C10 witness. -/
def c10wDB : DB := { receipts := [c10wReceipt] }

theorem c10_witness :
    restore_receipt env0 c10wReceipt.id 2 c10wDB =
      (.ok { c10wReceipt with deleted_at := none },
        { c10wDB.updateReceipt { c10wReceipt with deleted_at := none } with
            audit := c10wDB.audit ++ [restoredEvent c10wReceipt.id 2] }) :=
  (c10_restore_only_deleted env0 2 c10wDB c10wReceipt rfl (by decide) rfl
    (by decide)).2 ⟨9, 0⟩ rfl

/-- Claim C3: approve succeeds only when the receipt is PENDING; from any
other status it signals an invalid-state error and changes nothing.  On
success the status becomes COMPLETED and the call appends the approval
audit event, then the status-changed audit event, and then runs the
post-approval duplicate check, in that order. -/
theorem c3_approve_transition (env : Env) (rid uid : Nat) (db : DB)
    (r : Receipt)
    (haudit : env.auditFails = false)
    (hfind : db.findActive rid uid = some r) :
    (r.status ≠ ReceiptStatus.pending →
      approve_receipt env rid uid db = (.error .badRequest, db)) ∧
    (r.status = ReceiptStatus.pending →
      approve_receipt env rid uid db =
        (.ok (tryCheckDuplicates env { r with status := ReceiptStatus.completed } { db.updateReceipt { r with status := ReceiptStatus.completed } with audit := db.audit ++ [approvedEvent rid uid, statusEvent rid ReceiptStatus.pending.value ReceiptStatus.completed.value] }).1,
         (tryCheckDuplicates env { r with status := ReceiptStatus.completed } { db.updateReceipt { r with status := ReceiptStatus.completed } with audit := db.audit ++ [approvedEvent rid uid, statusEvent rid ReceiptStatus.pending.value ReceiptStatus.completed.value] }).2) ∧
      (approve_receipt env rid uid db).2.audit =
        db.audit ++ [approvedEvent rid uid,
          statusEvent rid ReceiptStatus.pending.value
            ReceiptStatus.completed.value] ∧
      (∀ rc, (approve_receipt env rid uid db).1 = .ok rc →
        rc.status = ReceiptStatus.completed)) := by
  constructor
  · intro hne
    unfold approve_receipt
    rw [hfind]
    simp only []
    rw [if_pos (by simpa using hne)]
  · intro hp
    have hred : approve_receipt env rid uid db =
        (.ok (tryCheckDuplicates env { r with status := ReceiptStatus.completed } { db.updateReceipt { r with status := ReceiptStatus.completed } with audit := db.audit ++ [approvedEvent rid uid, statusEvent rid ReceiptStatus.pending.value ReceiptStatus.completed.value] }).1,
         (tryCheckDuplicates env { r with status := ReceiptStatus.completed } { db.updateReceipt { r with status := ReceiptStatus.completed } with audit := db.audit ++ [approvedEvent rid uid, statusEvent rid ReceiptStatus.pending.value ReceiptStatus.completed.value] }).2) := by
      unfold approve_receipt
      rw [hfind]
      simp only []
      rw [if_neg (by simp [hp])]
      simp only [log_event, haudit, Bool.false_eq_true, if_false]
      rw [hp]
      simp [List.append_assoc, updateReceipt_audit]
    refine ⟨hred, ?_, ?_⟩
    · rw [hred]
      exact tryCheckDuplicates_audit env _ _
    · intro rc hok
      rw [hred] at hok
      simp only [Except.ok.injEq] at hok
      rw [← hok, tryCheckDuplicates_status]

/-- Pending receipt for the C3 witness. -/
def c3wPending : Receipt := { id := 1, user_id := 1, image_url := "u" }

/-- Completed receipt for the C3 witness. -/
def c3wDone : Receipt :=
  { id := 2, user_id := 1, image_url := "u2", status := .completed }

/-- Store for the C3 witness. -/
def c3wDB : DB := { receipts := [c3wPending, c3wDone] }

theorem c3_witness :
    approve_receipt env0 2 1 c3wDB = (.error .badRequest, c3wDB) ∧
    (approve_receipt env0 1 1 c3wDB).2.audit =
      c3wDB.audit ++ [approvedEvent 1 1,
        statusEvent 1 ReceiptStatus.pending.value
          ReceiptStatus.completed.value] :=
  ⟨(c3_approve_transition env0 2 1 c3wDB c3wDone rfl (by decide)).1
      (by decide),
   ((c3_approve_transition env0 1 1 c3wDB c3wPending rfl (by decide)).2
      rfl).2.1⟩

/-- Pending receipt for the C7 counterexample and witness. -/
def c7wReceipt : Receipt := { id := 1, user_id := 1, image_url := "u" }

/-- Store for the C7 counterexample and witness. -/
def c7wDB : DB := { receipts := [c7wReceipt] }

/-- Claim C7 counterexample: an audit-log failure during approval is NOT
swallowed — the endpoint raises (returns an internal error) instead of
returning its normal result, even though the status change was already
committed; with a working audit log the same call returns the approved
receipt. -/
theorem c7_counterexample :
    (approve_receipt { auditFails := true } 1 1 c7wDB).1 =
      .error (.internal "audit insert failed") ∧
    (approve_receipt { auditFails := true } 1 1 c7wDB).2.findById 1 =
      some { c7wReceipt with status := ReceiptStatus.completed } ∧
    (approve_receipt env0 1 1 c7wDB).1 =
      .ok { c7wReceipt with status := ReceiptStatus.completed } := by
  decide

/-- Claim C7 (amended): duplicate-detector failures are swallowed — with a
failing detector, approve and edit complete and return their normal
results, and a pipeline run still finishes in PENDING; audit-log failures
are not swallowed — approve raises after its status change is committed,
the upload endpoint raises after the receipt row is created, and inside
the pipeline an audit failure marks the receipt FAILED and raises. -/
theorem c7_failure_policy_amended :
    (∀ (env : Env) (rid uid : Nat) (db : DB) (r : Receipt),
      env.auditFails = false → env.dupFails = true →
      db.findActive rid uid = some r → r.status = ReceiptStatus.pending →
      approve_receipt env rid uid db =
        (.ok { r with status := ReceiptStatus.completed },
          { db.updateReceipt { r with status := ReceiptStatus.completed } with
              audit := db.audit ++ [approvedEvent rid uid,
                statusEvent rid ReceiptStatus.pending.value
                  ReceiptStatus.completed.value] })) ∧
    (∀ (env : Env) (rid uid : Nat) (db : DB) (r : Receipt)
       (u : ReceiptUpdate),
      env.auditFails = false → env.dupFails = true →
      db.findActive rid uid = some r →
      update_receipt env rid uid u db =
        (.ok (applyUpdate r u),
          { db.updateReceipt (applyUpdate r u) with
              audit := db.audit ++ updateEvents r u rid uid })) ∧
    (∀ (env : Env) (raw : String) (preview : Option String) (rid : Nat)
       (db : DB) (r0 : Receipt),
      env.auditFails = false → env.dupFails = true →
      db.findById rid = some r0 →
      ∃ rr, (process_receipt_ocr env (.ok (raw, preview)) none rid db).1 =
          .ok rr ∧ rr.status = ReceiptStatus.pending) ∧
    (∀ (env : Env) (rid uid : Nat) (db : DB) (r : Receipt),
      env.auditFails = true →
      db.findActive rid uid = some r → r.status = ReceiptStatus.pending →
      approve_receipt env rid uid db =
        (.error (.internal "audit insert failed"),
          db.updateReceipt { r with status := ReceiptStatus.completed })) ∧
    (∀ (env : Env) (extractRes : Except String (String × Option String))
       (aiResult : Option ParsedData) (filename : String) (uid : Nat)
       (now : PyDateTime) (db : DB),
      env.auditFails = true →
      upload_receipt_image env true extractRes aiResult filename uid now db =
        (.error (.internal "audit insert failed"),
          { db with
              receipts := db.receipts ++
                [{ id := db.next_receipt_id, user_id := uid,
                   image_url := upload_file_to_gcs filename uid,
                   status := ReceiptStatus.pending, created_at := now.ts }],
              next_receipt_id := db.next_receipt_id + 1 })) ∧
    (∀ (env : Env) (extractRes : Except String (String × Option String))
       (aiResult : Option ParsedData) (rid : Nat) (db : DB) (r0 : Receipt),
      env.auditFails = true →
      db.findById rid = some r0 →
      process_receipt_ocr env extractRes aiResult rid db =
        (.error "audit insert failed",
          (db.updateReceipt { r0 with status := ReceiptStatus.processing
            }).updateReceipt { r0 with status := ReceiptStatus.failed })) := by
  refine ⟨?_, ?_, ?_, ?_, ?_, ?_⟩
  · intro env rid uid db r ha hd hfind hp
    unfold approve_receipt
    rw [hfind]
    simp only []
    rw [if_neg (by simp [hp])]
    simp only [log_event, ha, Bool.false_eq_true, if_false]
    rw [hp]
    simp [tryCheckDuplicates, hd, List.append_assoc, updateReceipt_audit]
  · intro env rid uid db r u ha hd hfind
    unfold update_receipt
    rw [hfind]
    simp only []
    rw [logEventsSeq_ok env ha]
    simp only [tryCheckDuplicates, hd, if_true]
    split <;> rfl
  · intro env raw preview rid db r0 ha hd hfind
    unfold process_receipt_ocr
    rw [hfind]
    simp only [log_event, ha, Bool.false_eq_true, if_false,
      parse_receipt_with_ai]
    cases preview with
    | none =>
      simp only [tryCheckDuplicates, hd, if_true]
      exact ⟨_, rfl, rfl⟩
    | some p =>
      simp only [tryCheckDuplicates, hd, if_true]
      exact ⟨_, rfl, rfl⟩
  · intro env rid uid db r ha hfind hp
    unfold approve_receipt
    rw [hfind]
    simp only []
    rw [if_neg (by simp [hp])]
    simp only [log_event, ha, if_true]
  · intro env extractRes aiResult filename uid now db ha
    unfold upload_receipt_image
    simp only [log_event, ha, if_true, Bool.not_true, Bool.false_eq_true,
      if_false]
  · intro env extractRes aiResult rid db r0 ha hfind
    unfold process_receipt_ocr
    rw [hfind]
    simp only [log_event, ha, if_true, process_receipt_ocr.processExcept]

theorem c7_amended_witness :
    approve_receipt { dupFails := true } 1 1 c7wDB =
      (.ok { c7wReceipt with status := ReceiptStatus.completed },
        { c7wDB.updateReceipt { c7wReceipt with status := ReceiptStatus.completed } with
            audit := c7wDB.audit ++ [approvedEvent 1 1,
              statusEvent 1 ReceiptStatus.pending.value
                ReceiptStatus.completed.value] }) ∧
    approve_receipt { auditFails := true } 1 1 c7wDB =
      (.error (.internal "audit insert failed"),
        c7wDB.updateReceipt { c7wReceipt with status := ReceiptStatus.completed }) :=
  ⟨c7_failure_policy_amended.1 { dupFails := true } 1 1 c7wDB c7wReceipt rfl
      rfl (by decide) rfl,
   c7_failure_policy_amended.2.2.2.1 { auditFails := true } 1 1 c7wDB
      c7wReceipt rfl (by decide) rfl⟩

theorem receive_email_duplicate (msg : EmailMsg) (now : PyDateTime) (db : DB)
    (q : ProcessedEmail)
    (h : db.processed_emails.find?
        (fun p => p.email_hash == emailFingerprint msg) = some q) :
    receive_email msg now db =
      { resp := { status := "duplicate" }, db := db, trace := [] } := by
  unfold receive_email
  simp only []
  rw [h]

theorem processAttachments_pe (uid : Nat) (from_email : Option String)
    (subject : String) (now : PyDateTime) (files : List Attachment)
    (is : List Nat) (db : DB) (created : List Nat) (trace : List TraceOp) :
    (processAttachments uid from_email subject now files is
      (db, created, trace)).1.processed_emails = db.processed_emails :=
  (processAttachments_frame uid from_email subject now files is db created
    trace).1

theorem receive_email_records_fingerprint (msg : EmailMsg) (now : PyDateTime)
    (db : DB)
    (hfresh : db.processed_emails.find?
        (fun p => p.email_hash == emailFingerprint msg) = none) :
    (∃ p ∈ (receive_email msg now db).db.processed_emails,
        p.email_hash = emailFingerprint msg) ∧
    (receive_email msg now db).trace.head? =
      some TraceOp.fingerprintRecorded := by
  unfold receive_email
  simp only []
  rw [hfresh]
  simp only []
  repeat' split
  all_goals refine ⟨⟨{ email_hash := emailFingerprint msg, to_email := pyTrunc255 (some msg.to_addr), from_email := pyTrunc255 msg.from_email, subject := pyTrunc255 (some msg.subject), attachment_count := msg.attachments, processed_at := now.ts }, ?_, rfl⟩, ?_⟩
  all_goals first
    | rfl
    | (simp only [processAttachments_pe]
       first
         | exact List.mem_append_right _ (List.mem_singleton_self _)
         | (refine List.mem_filter.mpr
              ⟨List.mem_append_right _ (List.mem_singleton_self _), ?_⟩
            simp
            try omega))

/-- Claim C2: submitting the same inbound message twice — same recipient,
sender, subject, attachment count and filenames, at any two wall-clock
times — creates exactly one set of receipts: the second call is
short-circuited by the Processed-Message ledger into a "duplicate"
response, changes nothing (zero receipt rows), and in the first call the
fingerprint is recorded before any receipt is created. -/
theorem c2_email_idempotent (msg : EmailMsg) (now1 now2 : PyDateTime)
    (db : DB)
    (hfresh : db.processed_emails.find?
        (fun p => p.email_hash == emailFingerprint msg) = none) :
    (receive_email msg now2 (receive_email msg now1 db).db).resp.status =
      "duplicate" ∧
    (receive_email msg now2 (receive_email msg now1 db).db).db =
      (receive_email msg now1 db).db ∧
    (receive_email msg now2 (receive_email msg now1 db).db).trace = [] ∧
    (receive_email msg now1 db).trace.head? =
      some TraceOp.fingerprintRecorded := by
  obtain ⟨⟨p, hp, hph⟩, htr⟩ :=
    receive_email_records_fingerprint msg now1 db hfresh
  cases hf2 : (receive_email msg now1 db).db.processed_emails.find?
      (fun q => q.email_hash == emailFingerprint msg) with
  | none =>
    exfalso
    have hc := List.find?_eq_none.mp hf2 p hp
    simp [hph] at hc
  | some q =>
    have hdup :=
      receive_email_duplicate msg now2 (receive_email msg now1 db).db q hf2
    rw [hdup]
    exact ⟨rfl, rfl, rfl, htr⟩

/-- Inbound message for the C2 witness. -/
def c2wMsg : EmailMsg :=
  { to_addr := "r2@x.com", from_email := some "bob@y.com", subject := "s",
    attachments := 1, files := [{ filename := "b.png", size := 10 }] }

/-- Store for the C2 witness. -/
def c2wDB : DB :=
  { users := [{ id := 3, email := "b@y.com",
                unique_receipt_email := some "r2@x.com" }] }

theorem c2_witness :
    (receive_email c2wMsg ⟨999, 99⟩ (receive_email c2wMsg ⟨1, 0⟩
        c2wDB).db).resp.status = "duplicate" ∧
    (receive_email c2wMsg ⟨999, 99⟩ (receive_email c2wMsg ⟨1, 0⟩
        c2wDB).db).db = (receive_email c2wMsg ⟨1, 0⟩ c2wDB).db ∧
    (receive_email c2wMsg ⟨999, 99⟩ (receive_email c2wMsg ⟨1, 0⟩
        c2wDB).db).trace = [] ∧
    (receive_email c2wMsg ⟨1, 0⟩ c2wDB).trace.head? =
      some TraceOp.fingerprintRecorded :=
  c2_email_idempotent c2wMsg ⟨1, 0⟩ ⟨999, 99⟩ c2wDB rfl

theorem countP_fieldChangeEvents_name (rid uid : Nat) (fname fother : String)
    (oldRaw newRaw : Option String) :
    (fieldChangeEvents rid uid fname oldRaw newRaw).countP
        (fun ev => ev.field_name == some fother) =
      if fname = fother then
        (if pyStrOpt oldRaw == pyStrOpt newRaw then 0 else 1)
      else 0 := by
  unfold fieldChangeEvents
  split
  · simp_all
  · by_cases h : fname = fother <;>
      simp [fieldUpdatedEvent, h, List.countP_cons, *]

theorem countP_providedEvents_name {α : Type} (toStr : α → String)
    (rid uid : Nat) (fname fother : String) (oldRaw : Option String)
    (p : Option (Option α)) :
    (providedEvents toStr rid uid fname oldRaw p).countP
        (fun ev => ev.field_name == some fother) =
      if fname = fother then
        p.elim 0 (fun v =>
          if pyStrOpt oldRaw == pyStrOpt (v.map toStr) then 0 else 1)
      else 0 := by
  cases p with
  | none => simp [providedEvents]
  | some v => simp [providedEvents, countP_fieldChangeEvents_name]

theorem countP_isBusinessSegment_name (rid uid : Nat) (fother : String)
    (r : Receipt) (u : ReceiptUpdate) :
    ((match u.is_business with
      | none => ([] : List AuditEvent)
      | some v => fieldChangeEvents rid uid "is_business"
          (some (toString r.is_business)) (some (toString v))).countP
        (fun ev : AuditEvent => ev.field_name == some fother)) =
      if "is_business" = fother then
        u.is_business.elim 0 (fun v =>
          if toString r.is_business == toString v then 0 else 1)
      else 0 := by
  cases u.is_business with
  | none => simp
  | some v => simp [countP_fieldChangeEvents_name, pyStrOpt]

theorem providedEvents_none {α : Type} (toStr : α → String) (rid uid : Nat)
    (fname : String) (oldRaw : Option String) :
    providedEvents (α := α) toStr rid uid fname oldRaw none = [] := rfl

theorem providedEvents_eq_nil {α : Type} (toStr : α → String) (rid uid : Nat)
    (fname : String) (oldRaw : Option String) (p : Option (Option α))
    (h : ∀ v, p = some v → pyStrOpt (v.map toStr) = pyStrOpt oldRaw) :
    providedEvents toStr rid uid fname oldRaw p = [] := by
  cases p with
  | none => rfl
  | some v =>
    simp only [providedEvents]
    unfold fieldChangeEvents
    rw [if_pos (by simp [h v rfl])]

/-- Receipt for the C6 counterexample: its items field is already set. -/
def c6Receipt : Receipt :=
  { id := 1, user_id := 1, image_url := "u", items := some "itm" }

/-- A no-op edit: items set to its current value. -/
def c6Update : ReceiptUpdate := { items := some (some "itm") }

/-- Store for the C6 counterexample. -/
def c6DB : DB := { receipts := [c6Receipt] }

/-- Claim C6 counterexample: an edit whose new items value equals the old
one (stringified) still emits a field-updated audit event, because the
`old_values` dict does not track the items column and the comparison is
made against None — refuting "an edit where every new value equals the old
value after stringification emits zero field-updated events". -/
theorem c6_counterexample :
    c6Receipt.items = some "itm" ∧
    (update_receipt env0 1 1 c6Update c6DB).2.audit =
      [fieldUpdatedEvent 1 1 "items" none (some "itm")] := by
  decide

/-- Claim C6 (amended): a manual edit applies the partial update and emits
the change events computed per field in request order; for each of the
seven audit-tracked fields (vendor, date, total amount, tax amount,
category, notes, business flag) exactly one field-updated event is emitted
iff the stringified new value differs from the stringified old value,
while for the untracked fields (currency, original amount, exchange rate,
exchange-rate date, items) the old value is recorded as None, so an event
is emitted whenever the stringified new value differs from "None" — even
when nothing changed; an edit touching only tracked fields with equal
stringifications emits zero events; and when vendor, total amount or date
is among the updated fields the duplicate detector is re-run after the
update. -/
theorem c6_update_events_amended (env : Env) (rid uid : Nat) (db : DB)
    (r : Receipt) (u : ReceiptUpdate)
    (haudit : env.auditFails = false)
    (hfind : db.findActive rid uid = some r) :
    update_receipt env rid uid u db =
      (if u.vendor.isSome || u.total_amount.isSome || u.date.isSome then
        (.ok (tryCheckDuplicates env (applyUpdate r u) { db.updateReceipt (applyUpdate r u) with audit := db.audit ++ updateEvents r u rid uid }).1,
         (tryCheckDuplicates env (applyUpdate r u) { db.updateReceipt (applyUpdate r u) with audit := db.audit ++ updateEvents r u rid uid }).2)
       else
        (.ok (applyUpdate r u), { db.updateReceipt (applyUpdate r u) with audit := db.audit ++ updateEvents r u rid uid })) ∧
    (update_receipt env rid uid u db).2.audit =
      db.audit ++ updateEvents r u rid uid ∧
    ((updateEvents r u rid uid).countP
        (fun ev => ev.field_name == some "vendor") =
      u.vendor.elim 0 (fun v =>
        if pyStrOpt r.vendor == pyStrOpt v then 0 else 1)) ∧
    ((updateEvents r u rid uid).countP
        (fun ev => ev.field_name == some "date") =
      u.date.elim 0 (fun v =>
        if pyStrOpt (r.date.map dtStr) == pyStrOpt (v.map dtStr)
        then 0 else 1)) ∧
    ((updateEvents r u rid uid).countP
        (fun ev => ev.field_name == some "currency") =
      u.currency.elim 0 (fun v =>
        if pyStrOpt none == pyStrOpt v then 0 else 1)) ∧
    ((updateEvents r u rid uid).countP
        (fun ev => ev.field_name == some "original_amount") =
      u.original_amount.elim 0 (fun v =>
        if pyStrOpt none == pyStrOpt (v.map toString) then 0 else 1)) ∧
    ((updateEvents r u rid uid).countP
        (fun ev => ev.field_name == some "exchange_rate") =
      u.exchange_rate.elim 0 (fun v =>
        if pyStrOpt none == pyStrOpt (v.map toString) then 0 else 1)) ∧
    ((updateEvents r u rid uid).countP
        (fun ev => ev.field_name == some "exchange_rate_date") =
      u.exchange_rate_date.elim 0 (fun v =>
        if pyStrOpt none == pyStrOpt (v.map dtStr) then 0 else 1)) ∧
    ((updateEvents r u rid uid).countP
        (fun ev => ev.field_name == some "total_amount") =
      u.total_amount.elim 0 (fun v =>
        if pyStrOpt (r.total_amount.map toString) ==
          pyStrOpt (v.map toString) then 0 else 1)) ∧
    ((updateEvents r u rid uid).countP
        (fun ev => ev.field_name == some "tax_amount") =
      u.tax_amount.elim 0 (fun v =>
        if pyStrOpt (r.tax_amount.map toString) ==
          pyStrOpt (v.map toString) then 0 else 1)) ∧
    ((updateEvents r u rid uid).countP
        (fun ev => ev.field_name == some "items") =
      u.items.elim 0 (fun v =>
        if pyStrOpt none == pyStrOpt v then 0 else 1)) ∧
    ((updateEvents r u rid uid).countP
        (fun ev => ev.field_name == some "category") =
      u.category.elim 0 (fun v =>
        if pyStrOpt (r.category.map ExpenseCategory.value) ==
          pyStrOpt (v.map ExpenseCategory.value) then 0 else 1)) ∧
    ((updateEvents r u rid uid).countP
        (fun ev => ev.field_name == some "notes") =
      u.notes.elim 0 (fun v =>
        if pyStrOpt r.notes == pyStrOpt v then 0 else 1)) ∧
    ((updateEvents r u rid uid).countP
        (fun ev => ev.field_name == some "is_business") =
      u.is_business.elim 0 (fun v =>
        if toString r.is_business == toString v then 0 else 1)) ∧
    (u.currency = none → u.original_amount = none → u.exchange_rate = none →
     u.exchange_rate_date = none → u.items = none →
     (∀ v, u.vendor = some v → pyStrOpt v = pyStrOpt r.vendor) →
     (∀ v, u.date = some v →
        pyStrOpt (v.map dtStr) = pyStrOpt (r.date.map dtStr)) →
     (∀ v, u.total_amount = some v →
        pyStrOpt (v.map toString) = pyStrOpt (r.total_amount.map toString)) →
     (∀ v, u.tax_amount = some v →
        pyStrOpt (v.map toString) = pyStrOpt (r.tax_amount.map toString)) →
     (∀ v, u.category = some v →
        pyStrOpt (v.map ExpenseCategory.value) =
          pyStrOpt (r.category.map ExpenseCategory.value)) →
     (∀ v, u.notes = some v → pyStrOpt v = pyStrOpt r.notes) →
     (∀ v, u.is_business = some v → toString v = toString r.is_business) →
     updateEvents r u rid uid = []) := by
  have hmaster : update_receipt env rid uid u db =
      (if u.vendor.isSome || u.total_amount.isSome || u.date.isSome then
        (.ok (tryCheckDuplicates env (applyUpdate r u) { db.updateReceipt (applyUpdate r u) with audit := db.audit ++ updateEvents r u rid uid }).1,
         (tryCheckDuplicates env (applyUpdate r u) { db.updateReceipt (applyUpdate r u) with audit := db.audit ++ updateEvents r u rid uid }).2)
       else
        (.ok (applyUpdate r u), { db.updateReceipt (applyUpdate r u) with audit := db.audit ++ updateEvents r u rid uid })) := by
    unfold update_receipt
    rw [hfind]
    simp only []
    rw [logEventsSeq_ok env haudit]
    simp only []
    split
    · rfl
    · rfl
  refine ⟨hmaster, ?_, ?_, ?_, ?_, ?_, ?_, ?_, ?_, ?_, ?_, ?_, ?_, ?_, ?_⟩
  · rw [hmaster]
    split
    · simp [tryCheckDuplicates_audit]
    · simp
  · simp only [updateEvents, List.countP_append, countP_providedEvents_name,
      countP_isBusinessSegment_name]
    simp
  · simp only [updateEvents, List.countP_append, countP_providedEvents_name,
      countP_isBusinessSegment_name]
    simp
  · simp only [updateEvents, List.countP_append, countP_providedEvents_name,
      countP_isBusinessSegment_name]
    simp
  · simp only [updateEvents, List.countP_append, countP_providedEvents_name,
      countP_isBusinessSegment_name]
    simp
  · simp only [updateEvents, List.countP_append, countP_providedEvents_name,
      countP_isBusinessSegment_name]
    simp
  · simp only [updateEvents, List.countP_append, countP_providedEvents_name,
      countP_isBusinessSegment_name]
    simp
  · simp only [updateEvents, List.countP_append, countP_providedEvents_name,
      countP_isBusinessSegment_name]
    simp
  · simp only [updateEvents, List.countP_append, countP_providedEvents_name,
      countP_isBusinessSegment_name]
    simp
  · simp only [updateEvents, List.countP_append, countP_providedEvents_name,
      countP_isBusinessSegment_name]
    simp
  · simp only [updateEvents, List.countP_append, countP_providedEvents_name,
      countP_isBusinessSegment_name]
    simp
  · simp only [updateEvents, List.countP_append, countP_providedEvents_name,
      countP_isBusinessSegment_name]
    simp
  · simp only [updateEvents, List.countP_append, countP_providedEvents_name,
      countP_isBusinessSegment_name]
    simp
  · intro hcur horig hex hexd hitems hv hd ht hx hcat hn hb
    have e1 : providedEvents id rid uid "vendor" r.vendor u.vendor = [] :=
      providedEvents_eq_nil _ _ _ _ _ _
        (fun v hv2 => by simpa using hv v hv2)
    have e2 : providedEvents dtStr rid uid "date" (r.date.map dtStr)
        u.date = [] := providedEvents_eq_nil _ _ _ _ _ _ hd
    have e7 : providedEvents toString rid uid "total_amount"
        (r.total_amount.map toString) u.total_amount = [] :=
      providedEvents_eq_nil _ _ _ _ _ _ ht
    have e8 : providedEvents toString rid uid "tax_amount"
        (r.tax_amount.map toString) u.tax_amount = [] :=
      providedEvents_eq_nil _ _ _ _ _ _ hx
    have e10 : providedEvents ExpenseCategory.value rid uid "category"
        (r.category.map ExpenseCategory.value) u.category = [] :=
      providedEvents_eq_nil _ _ _ _ _ _ hcat
    have e11 : providedEvents id rid uid "notes" r.notes u.notes = [] :=
      providedEvents_eq_nil _ _ _ _ _ _
        (fun v hv2 => by simpa using hn v hv2)
    have e12 : (match u.is_business with
        | none => ([] : List AuditEvent)
        | some v => fieldChangeEvents rid uid "is_business"
            (some (toString r.is_business)) (some (toString v))) = [] := by
      cases hbv : u.is_business with
      | none => rfl
      | some v =>
        simp only []
        unfold fieldChangeEvents
        rw [if_pos (by simp [pyStrOpt, hb v hbv])]
    simp [updateEvents, hcur, horig, hex, hexd, hitems, e1, e2, e7, e8,
      e10, e11, e12, providedEvents_none]

/-- Receipt for the C6 amended witness. -/
def c6wReceipt : Receipt :=
  { id := 5, user_id := 2, image_url := "u", vendor := some "A",
    items := some "x" }

/-- Store for the C6 amended witness. -/
def c6wDB : DB := { receipts := [c6wReceipt] }

/-- Edit for the C6 amended witness: a real vendor change plus a no-op
items write. -/
def c6wUpdate : ReceiptUpdate :=
  { vendor := some (some "B"), items := some (some "x") }

theorem c6_amended_witness :
    (update_receipt env0 5 2 c6wUpdate c6wDB).2.audit =
      c6wDB.audit ++ updateEvents c6wReceipt c6wUpdate 5 2 ∧
    (updateEvents c6wReceipt c6wUpdate 5 2).countP
        (fun ev => ev.field_name == some "items") =
      c6wUpdate.items.elim 0 (fun v =>
        if pyStrOpt none == pyStrOpt v then 0 else 1) ∧
    (updateEvents c6wReceipt c6wUpdate 5 2).countP
        (fun ev => ev.field_name == some "vendor") =
      c6wUpdate.vendor.elim 0 (fun v =>
        if pyStrOpt c6wReceipt.vendor == pyStrOpt v then 0 else 1) := by
  obtain ⟨hm, ha, hv, hdt, hcu, ho, he, hed, hta, htx, hit, hca, hno, hib,
    hnop⟩ := c6_update_events_amended env0 5 2 c6wDB c6wReceipt c6wUpdate
      rfl (by decide)
  exact ⟨ha, hit, hv⟩

theorem length_insertByCreatedDesc (x : Receipt) (l : List Receipt) :
    (insertByCreatedDesc x l).length = l.length + 1 := by
  induction l with
  | nil => rfl
  | cons h t ih =>
    simp only [insertByCreatedDesc]
    split <;> simp [ih]

theorem length_sortByCreatedDesc (l : List Receipt) :
    (sortByCreatedDesc l).length = l.length := by
  induction l with
  | nil => rfl
  | cons h t ih =>
    show (insertByCreatedDesc h (sortByCreatedDesc t)).length = _
    rw [length_insertByCreatedDesc, ih]
    rfl

/-- Soft-deleted receipt for the C5 counterexample, with vendor, amount
and date present. -/
def c5DelReceipt : Receipt :=
  { id := 1, user_id := 1, image_url := "u", vendor := some "V",
    total_amount := some 5, date := some ⟨100, 7⟩,
    deleted_at := some ⟨200, 0⟩ }

/-- A live matching receipt of the same user for the C5 counterexample. -/
def c5Other : Receipt :=
  { id := 2, user_id := 1, image_url := "u2", vendor := some "V",
    total_amount := some 5, date := some ⟨100, 9⟩ }

/-- Store for the C5 counterexample. -/
def c5DB : DB := { receipts := [c5DelReceipt, c5Other] }

/-- Claim C5 counterexample: a soft-deleted receipt is NOT excluded from
every mutation path except restore — delete accepts it again (re-stamping
the tombstone and logging another deletion event), and the OCR pipeline,
which fetches by id without the tombstone filter, duplicate-checks it as
the subject and flags it. -/
theorem c5_counterexample :
    c5DelReceipt.deleted_at ≠ none ∧
    (delete_receipt env0 1 1 ⟨300, 0⟩ c5DB).1 = .ok () ∧
    ((delete_receipt env0 1 1 ⟨300, 0⟩ c5DB).2.findById 1).map
      Receipt.deleted_at = some (some ⟨300, 0⟩) ∧
    ((process_receipt_ocr env0 (.ok ("raw", none)) none 1 c5DB).2.findById
      1).map Receipt.duplicate_suspect = some 1 := by
  decide

/-- Claim C5 (amended): a soft-deleted receipt is excluded from listings,
from the analytics query, and from the get/update/approve/dismiss paths;
it never matches as a duplicate-check candidate; restore clears the
tombstone, re-admitting it to listings and (as a candidate) to duplicate
scans.  However, delete itself does not exclude it — deleting again
re-stamps the tombstone — and the OCR pipeline can still duplicate-check
it as the subject receipt. -/
theorem c5_soft_delete_exclusion (env : Env) (uid : Nat) (now : PyDateTime)
    (db : DB) (r : Receipt) (t : PyDateTime)
    (haudit : env.auditFails = false)
    (hmem : r ∈ db.receipts) (huser : r.user_id = uid)
    (hdel : r.deleted_at = some t)
    (huniq : ∀ x ∈ db.receipts, x.id = r.id → x = r) :
    (∀ skip limit, r ∉ list_receipts uid skip limit db) ∧
    (∀ sd ed, r ∉ analytics_receipts uid sd ed db) ∧
    get_receipt r.id uid db = .error .notFound ∧
    (∀ u2, update_receipt env r.id uid u2 db = (.error .notFound, db)) ∧
    approve_receipt env r.id uid db = (.error .notFound, db) ∧
    dismiss_duplicate r.id uid db = (.error .notFound, db) ∧
    (∀ subj d, dupFilter subj d r = false) ∧
    (delete_receipt env r.id uid now db =
      (.ok (), ({ db with audit := db.audit ++ [deletedEvent r.id uid]
        }).updateReceipt { r with deleted_at := some now })) ∧
    (restore_receipt env r.id uid db =
      (.ok { r with deleted_at := none },
        { db.updateReceipt { r with deleted_at := none } with
            audit := db.audit ++ [restoredEvent r.id uid] })) ∧
    { r with deleted_at := none } ∈
      list_receipts uid 0
        ((restore_receipt env r.id uid db).2.receipts.length)
        (restore_receipt env r.id uid db).2 := by
  have hnotact : db.findActive r.id uid = none := by
    apply List.find?_eq_none.mpr
    intro x hx
    by_cases hxid : x.id = r.id
    · have hxr := huniq x hx hxid
      subst hxr
      simp [hdel]
    · simp [hxid]
  have howned : db.findOwned r.id uid = some r := by
    apply find?_eq_of_unique db.receipts _ r hmem
    · simp [huser]
    · intro x hx hpx
      simp only [Bool.and_eq_true, beq_iff_eq] at hpx
      exact huniq x hx hpx.1
  have hrfind : db.receipts.find? (fun x =>
      x.id == r.id && x.user_id == uid && x.deleted_at != none) = some r := by
    apply find?_eq_of_unique db.receipts _ r hmem
    · simp [huser, hdel]
    · intro x hx hpx
      simp only [Bool.and_eq_true, beq_iff_eq] at hpx
      exact huniq x hx hpx.1.1
  have hrestore : restore_receipt env r.id uid db =
      (.ok { r with deleted_at := none },
        { db.updateReceipt { r with deleted_at := none } with
            audit := db.audit ++ [restoredEvent r.id uid] }) := by
    unfold restore_receipt
    rw [hrfind]
    simp only [log_event, haudit, Bool.false_eq_true, if_false]
    rfl
  refine ⟨?_, ?_, ?_, ?_, ?_, ?_, ?_, ?_, hrestore, ?_⟩
  · intro skip limit hcon
    have h1 := List.mem_of_mem_take hcon
    have h2 := List.mem_of_mem_drop h1
    have h3 := mem_sortByCreatedDesc.mp h2
    have h4 := List.mem_filter.mp h3
    simp [hdel] at h4
  · intro sd ed hcon
    unfold analytics_receipts at hcon
    simp only [] at hcon
    split at hcon
    · split at hcon
      · have h4 := (List.mem_filter.mp
          (List.mem_filter.mp (List.mem_filter.mp hcon).1).1)
        simp [hdel] at h4
      · have h4 := List.mem_filter.mp (List.mem_filter.mp hcon).1
        simp [hdel] at h4
    · split at hcon
      · have h4 := List.mem_filter.mp (List.mem_filter.mp hcon).1
        simp [hdel] at h4
      · have h4 := List.mem_filter.mp hcon
        simp [hdel] at h4
  · unfold get_receipt
    rw [hnotact]
  · intro u2
    unfold update_receipt
    rw [hnotact]
  · unfold approve_receipt
    rw [hnotact]
  · unfold dismiss_duplicate
    rw [hnotact]
  · intro subj d
    simp [dupFilter, hdel]
  · unfold delete_receipt
    rw [howned]
    simp only [log_event, haudit, Bool.false_eq_true, if_false]
  · rw [hrestore]
    unfold list_receipts
    rw [List.drop_zero]
    have hmem2 : { r with deleted_at := none } ∈
        ({ db.updateReceipt { r with deleted_at := none } with
            audit := db.audit ++ [restoredEvent r.id uid] }).receipts :=
      mem_updateReceipt_self db _ r hmem rfl
    have hfil : { r with deleted_at := none } ∈
        (({ db.updateReceipt { r with deleted_at := none } with
            audit := db.audit ++ [restoredEvent r.id uid] }).receipts.filter
          (fun x : Receipt => x.user_id == uid && x.deleted_at == none)) := by
      apply List.mem_filter.mpr
      exact ⟨hmem2, by simp [huser]⟩
    have hsorted := mem_sortByCreatedDesc.mpr hfil
    have hlen : (sortByCreatedDesc
        (({ db.updateReceipt { r with deleted_at := none } with
            audit := db.audit ++ [restoredEvent r.id uid] }).receipts.filter
          (fun x : Receipt => x.user_id == uid && x.deleted_at == none))).length ≤
        ({ db.updateReceipt { r with deleted_at := none } with
            audit := db.audit ++ [restoredEvent r.id uid] }).receipts.length := by
      rw [length_sortByCreatedDesc]
      exact List.length_filter_le _ _
    rw [List.take_of_length_le hlen]
    exact hsorted

theorem c5_amended_witness :
    (∀ skip limit, c5DelReceipt ∉ list_receipts 1 skip limit c5DB) ∧
    get_receipt c5DelReceipt.id 1 c5DB = .error .notFound ∧
    approve_receipt env0 c5DelReceipt.id 1 c5DB = (.error .notFound, c5DB) ∧
    (∀ subj d, dupFilter subj d c5DelReceipt = false) := by
  obtain ⟨h1, h2, h3, h4, h5, h6, h7, h8, h9, h10⟩ :=
    c5_soft_delete_exclusion env0 1 ⟨300, 0⟩ c5DB c5DelReceipt ⟨200, 0⟩ rfl
      (by decide) rfl rfl (by decide)
  exact ⟨h1, h3, h5, h7⟩
